import Mathlib

/-!
# Verification of the IVO real-time two-stage IMU gesture pipeline

A shallow embedding of `gesture_controller.py` (time-indexed ring buffer,
linear-interpolation resampler, Stage-1 entry detector, Stage-2 candidate
classifier, motion monitor, and the main session state machine), together
with theorems settling the frozen claims about the pipeline.

Modelling conventions:
* Machine floats are idealized as rationals (`ℚ`).  The two neural models are
  abstracted as oracle functions (per the spec they are external collaborator
  capabilities): the Stage-1 oracle maps a normalized window to a sigmoid
  probability, the Stage-2 oracle maps a normalized window to a softmax
  distribution (a `List ℚ`).
* `+infinity` sentinel results (motion monitor) are modelled as `none`.
* `np.std`-based Euclidean magnitudes are irrational in general, so the
  executable motion monitor returns the *squared* magnitudes; the comparison
  against the hold thresholds is performed on squares, which is equivalent
  because both sides are nonnegative (a bridging lemma connects the squares
  to the real-valued norms of the per-axis standard deviation vectors).
* Python's `round` (banker's rounding, ties to even) is modelled exactly on
  rationals by `pythonRound`.

The file is laid out as: all definitions first, then the theorems.
-/

namespace IVO

/-! ## Definitions: numeric helpers and the resampler -/

/-- One decoded IMU frame: the 30 channel values of a datagram
(watch channels at indices 0–14, phone channels at 15–29).
Source: `struct.unpack('>30f', data)` produces a 30-value array. -/
abbrev Frame := List ℚ

/-- Channel accessor: value of channel `i` of a frame (0 outside range,
mirroring that decoded frames always carry 30 values). -/
def ch (fr : Frame) (i : ℕ) : ℚ := fr.getD i 0

/-- The detection channel indices: `DETECTION_CHANNELS` resolved through
`WATCH_PHONE_IMU_LOOKUP` — watch 3-axis linear acceleration (5,6,7) and
3-axis gyroscope (8,9,10). -/
def detIndices : List ℕ := [5, 6, 7, 8, 9, 10]

/-- Python's `round` on a rational: nearest integer, ties to even. -/
def pythonRound (q : ℚ) : ℤ :=
  let f := ⌊q⌋
  if q - f < 1/2 then f
  else if (1:ℚ)/2 < q - f then f + 1
  else if f % 2 = 0 then f else f + 1

/-- `np.clip(x, -c, c)`. -/
def clipQ (c x : ℚ) : ℚ := max (-c) (min c x)

/-- `np.interp(x, xs, ys)` on a list of (x, y) knots: clamp to the boundary
value outside the knot range, linear interpolation between bracketing knots.
(`np.interp` assumes the knot abscissas are increasing; receipt timestamps
are appended in arrival order and are nondecreasing.) -/
def interp (x : ℚ) : List (ℚ × ℚ) → ℚ
  | [] => 0
  | [(_, y0)] => y0
  | (x0, y0) :: (x1, y1) :: rest =>
      if x ≤ x0 then y0
      else if x ≤ x1 then y0 + (y1 - y0) * (x - x0) / (x1 - x0)
      else interp x ((x1, y1) :: rest)

/-- `t_start + np.arange(n) * dt`: the fixed-rate resampling grid. -/
def timeGrid (tStart dt : ℚ) (n : ℕ) : List ℚ :=
  (List.range n).map (fun i => tStart + (i : ℚ) * dt)

/-- Column `chIdx` of a list of rows. -/
def column (rows : List (List ℚ)) (chIdx : ℕ) : List ℚ :=
  rows.map (fun r => r.getD chIdx 0)

/-- Per-channel linear-interpolation resampling of irregular rows onto a
grid: row `i` of the result holds, for each of the `width` channels, the
interpolated value of that channel at grid point `i`
(the `np.interp` loop over channels in both detectors). -/
def resampleGrid (times : List ℚ) (rows : List (List ℚ)) (grid : List ℚ)
    (width : ℕ) : List (List ℚ) :=
  grid.map (fun t => (List.range width).map
    (fun c => interp t (times.zip (column rows c))))

/-! ## Definitions: time-indexed ring buffer (`IMURingBuffer`)

The two parallel `deque(maxlen=...)`s (timestamps, frames) are modelled as a
single list of pairs; `add` appends to both in lockstep, so they always have
equal length and the pairing is faithful. Polymorphic in the stored frame. -/

/-- `IMURingBuffer.add`: append, evicting the oldest entries beyond
`maxlen` (deque overwrite-oldest semantics). -/
def rbAdd {α : Type} (maxlen : ℕ) (entries : List (ℚ × α)) (ts : ℚ)
    (fr : α) : List (ℚ × α) :=
  let l := entries ++ [(ts, fr)]
  l.drop (l.length - maxlen)

/-- `IMURingBuffer.get_recent(n)`: the last `min n len` entries,
most-recent last. -/
def rbGetRecent {α : Type} (n : ℕ) (entries : List (ℚ × α)) :
    List (ℚ × α) :=
  entries.drop (entries.length - n)

/-- `IMURingBuffer.get_by_time_range(t_start, t_end)`: the source iterates
the zipped deques, skipping entries with `ts < t_start or ts > t_end` and
appending the rest in order; empty arrays when nothing matches. -/
def get_by_time_range {α : Type} (entries : List (ℚ × α))
    (tStart tEnd : ℚ) : List (ℚ × α) :=
  match entries with
  | [] => []
  | e :: rest =>
      if e.1 < tStart ∨ e.1 > tEnd then get_by_time_range rest tStart tEnd
      else e :: get_by_time_range rest tStart tEnd

/-! ## Definitions: motion monitor (`calculate_motion_magnitude`)

`np.std(data, axis=0)` is the population standard deviation; the source
returns `np.linalg.norm` of the per-axis std 3-vectors, i.e.
`sqrt (var_x + var_y + var_z)`.  Since the square root of a rational is
irrational in general, the executable model returns the *squared*
magnitudes, `var_x + var_y + var_z`, wrapped in `Option`
(`none` models the `(+inf, +inf)` "treat as moving" sentinel).  The hold
comparison in the session machine compares the squares against the squared
thresholds, which is equivalent (both sides nonnegative); the bridging to
the real-valued Euclidean norm of the std vector is proved in the C7
theorem. -/

/-- Population variance `np.std(xs)^2 = mean ((x - mean xs)^2)`. -/
def popVar (xs : List ℚ) : ℚ :=
  let n : ℚ := xs.length
  let μ := xs.sum / n
  ((xs.map (fun x => (x - μ) ^ 2)).sum) / n

/-- Sum of the population variances of channels `i0, i0+1, i0+2` over a list
of qualifying frames: the squared Euclidean norm of the per-axis std
3-vector for that channel triple. -/
def varSum3 (frames : List Frame) (i0 : ℕ) : ℚ :=
  popVar (frames.map (fun fr => ch fr i0)) +
  popVar (frames.map (fun fr => ch fr (i0 + 1))) +
  popVar (frames.map (fun fr => ch fr (i0 + 2)))

/-- The qualifying samples of a motion check: among the (up to) 50 most
recent entries, those within `windowSec` of the latest timestamp
(`mask = times >= times[-1] - window_sec`). -/
def motionQualifying (entries : List (ℚ × Frame)) (windowSec : ℚ) :
    List (ℚ × Frame) :=
  let recent := rbGetRecent 50 entries
  let nowT := ((recent.getLast?).getD (0, [])).1
  recent.filter (fun e => nowT - windowSec ≤ e.1)

/-- `calculate_motion_magnitude(buffer, window_sec)`, returning the squared
acceleration / gyro magnitudes, `none` for every `(+inf, +inf)` early
return: buffer shorter than 5, fewer than 3 recent samples, or fewer than 3
qualifying samples.  Acceleration channels 5–7, gyro channels 8–10. -/
def calculate_motion_magnitude (entries : List (ℚ × Frame))
    (windowSec : ℚ) : Option (ℚ × ℚ) :=
  if entries.length < 5 then none
  else
    let recent := rbGetRecent 50 entries
    if recent.length < 3 then none
    else
      let qual := motionQualifying entries windowSec
      if qual.length < 3 then none
      else
        let frames := qual.map (fun e => e.2)
        some (varSum3 frames 5, varSum3 frames 8)

/-- Modelled from the spec's words (§4.4 Motion Monitor), for comparison
with the source: "Pulls up to the most recent 50 buffered samples,
restricts to those within `window_sec` of the latest timestamp ... If fewer
than 3 qualifying samples exist, returns `(+infinity, +infinity)`" — i.e.
*without* the source's additional `len(buffer) < 5` early return. -/
def motion_magnitude_specVersion (entries : List (ℚ × Frame))
    (windowSec : ℚ) : Option (ℚ × ℚ) :=
  let qual := motionQualifying entries windowSec
  if qual.length < 3 then none
  else
    let frames := qual.map (fun e => e.2)
    some (varSum3 frames 5, varSum3 frames 8)

/-- A three-sample buffer of identical frames: every sample qualifies. -/
def motionCexBuf : List (ℚ × Frame) :=
  [(0, List.replicate 30 0), (1/10, List.replicate 30 0),
   (2/10, List.replicate 30 0)]

/-! ## Definitions: normalization (`_preprocess`, identical in both stages)

`x = nan_to_num(x, nan→0, ±inf→±clip); x = clip(x, -clip, clip);`
`x = (x - mean) / std_safe; x = nan_to_num(x)`.
Over rationals there are no non-finite values, so both `nan_to_num` calls
are the identity and the sanitization step reduces to the clip. -/

/-- One row of `_preprocess`: clip, then z-score against the checkpoint
statistics with the minimum-std floor
(`std_safe = where(std < eps, 1.0, std)`). -/
def preprocessRow (mean std : List ℚ) (eps c : ℚ) (row : List ℚ) :
    List ℚ :=
  (List.range row.length).map (fun i =>
    let x := clipQ c (row.getD i 0)
    let s := std.getD i 0
    let sSafe := if s < eps then 1 else s
    (x - mean.getD i 0) / sSafe)

/-- `_preprocess` applied to a whole `(length, channels)` window. -/
def preprocess (mean std : List ℚ) (eps c : ℚ) (X : List (List ℚ)) :
    List (List ℚ) :=
  X.map (preprocessRow mean std eps c)

/-! ## Definitions: Stage-1 entry detector (`Stage1Detector`) -/

/-- Checkpoint-derived configuration of the Stage-1 detector. -/
structure S1Cfg where
  winLen : ℕ
  windowSec : ℚ
  stepSec : ℚ
  threshold : ℚ
  targetFs : ℚ
  mean : List ℚ
  std : List ℚ
  eps : ℚ
  clipValue : ℚ

/-- The mutable state of the Stage-1 detector object: the shared ring
buffer contents (read-only for the detector) and `last_infer_time`. -/
structure S1State where
  buffer : List (ℚ × Frame)
  lastInfer : Option ℚ

/-- The rate-limit guard:
`(last_infer_time is not None) and (now - last_infer_time < step_sec)`. -/
def rateLimited (lastInfer : Option ℚ) (now stepSec : ℚ) : Bool :=
  match lastInfer with
  | some t => decide (now - t < stepSec)
  | none => false

/-- The normalized model input computed by `maybe_detect` when it reaches
inference: pull `[now - window_sec, now]` from the buffer, extract the 6
detection channels, resample onto the `win_len`-point grid at `target_fs`
via `np.interp`, then `_preprocess` (clip/sanitize + z-score) the
*resampled* window. -/
def stage1_model_input (cfg : S1Cfg) (buffer : List (ℚ × Frame))
    (now : ℚ) : List (List ℚ) :=
  let tStart := now - cfg.windowSec
  let sel := get_by_time_range buffer tStart now
  let times := sel.map (fun e => e.1)
  let rows := sel.map (fun e => detIndices.map (ch e.2))
  let grid := timeGrid tStart (1 / cfg.targetFs) cfg.winLen
  preprocess cfg.mean cfg.std cfg.eps cfg.clipValue
    (resampleGrid times rows grid detIndices.length)

/-- Following the spec's words (§4.2 Resampler: "Before resampling, raw
values are clipped to a fixed magnitude bound and non-finite values
replaced"), for comparison with the source: the same pipeline with the
clip/sanitize applied to the *raw* values before interpolation, and only
the z-score after. -/
def stage1_input_sanitizeFirst (cfg : S1Cfg) (buffer : List (ℚ × Frame))
    (now : ℚ) : List (List ℚ) :=
  let tStart := now - cfg.windowSec
  let sel := get_by_time_range buffer tStart now
  let times := sel.map (fun e => e.1)
  let rows := sel.map (fun e =>
    (detIndices.map (ch e.2)).map (clipQ cfg.clipValue))
  let grid := timeGrid tStart (1 / cfg.targetFs) cfg.winLen
  preprocess cfg.mean cfg.std cfg.eps cfg.clipValue
    (resampleGrid times rows grid detIndices.length)

/-- `Stage1Detector.maybe_detect(current_time)`: guards in source order
(buffer shorter than the model window; rate limit; fewer than 2 samples in
the trailing window), then resample + normalize + infer; returns the
`(is_gesture, prob)` pair with `is_gesture = prob >= threshold`, updating
`last_infer_time` only on inference.  The oracle `O` abstracts
`sigmoid(model(x))`. -/
def maybe_detect (cfg : S1Cfg) (O : List (List ℚ) → ℚ) (st : S1State)
    (now : ℚ) : (Bool × Option ℚ) × S1State :=
  if st.buffer.length < cfg.winLen then ((false, none), st)
  else if rateLimited st.lastInfer now cfg.stepSec then ((false, none), st)
  else
    let sel := get_by_time_range st.buffer (now - cfg.windowSec) now
    if sel.length < 2 then ((false, none), st)
    else
      let p := O (stage1_model_input cfg st.buffer now)
      ((decide (cfg.threshold ≤ p), some p),
        { st with lastInfer := some now })

/-- A Stage-1 configuration for concrete runs, parameterized by the
threshold: 1-sample window over 1 s at 1 Hz, identity normalization. -/
def s1CfgAt (τ : ℚ) : S1Cfg :=
  { winLen := 1, windowSec := 1, stepSec := 1, threshold := τ,
    targetFs := 1, mean := [0, 0, 0, 0, 0, 0], std := [1, 1, 1, 1, 1, 1],
    eps := 1/1000000, clipValue := 10000 }

/-- A two-sample all-zero buffer inside the trailing 1-second window
ending at `now = 1`. -/
def s1CexBuf : List (ℚ × Frame) :=
  [(1/2, List.replicate 30 0), (1, List.replicate 30 0)]

/-! ## Definitions: Stage-2 candidate classifier (`Stage2Classifier`) -/

/-- Checkpoint-derived configuration of the Stage-2 classifier. -/
structure S2Cfg where
  seqLen : ℕ
  idToName : List (ℕ × String)
  mean : List ℚ
  std : List ℚ
  eps : ℚ
  clipValue : ℚ

/-- `self.class_id_to_name.get(best_id, f"class_{best_id}")`. -/
def className (cfg : S2Cfg) (i : ℕ) : String :=
  (cfg.idToName.lookup i).getD (String.append "class_" (toString i))

/-- `Stage2Classifier._center_crop_or_pad`: crop the centre `target_len`
rows when too long, zero-fill symmetrically around the centre when too
short. -/
def center_crop_or_pad (seq : List (List ℚ)) (target : ℕ) :
    List (List ℚ) :=
  let L := seq.length
  let D := (seq.headD []).length
  if L = target then seq
  else if target < L then (seq.drop ((L - target) / 2)).take target
  else
    let start := (target - L) / 2
    List.replicate start (List.replicate D 0) ++ seq ++
      List.replicate (target - L - start) (List.replicate D 0)

/-- `np.max` of a probability vector (0 on the empty list, which `np`
would reject; the classifier always produces `num_classes ≥ 1` scores). -/
def maxD (l : List ℚ) : ℚ :=
  match l with
  | [] => 0
  | h :: t => t.foldl max h

/-- `np.argmax`: index of the first occurrence of the maximum. -/
def argmaxIdx (l : List ℚ) : ℕ := l.findIdx (fun x => x = maxD l)

/-- Python `range(0, stop, step)` for positive `step`: the multiples of
`step` below `stop`. -/
def rangeStep (stop step : ℕ) : List ℕ :=
  (List.range ((stop + step - 1) / step)).map (fun k => k * step)

/-- The fold of the sliding-window loop: the running
`(best_prob, best_id)` pair, the candidate replacing the best only on
strictly greater confidence (`if p_max > best_prob`). -/
def slideBest (f : ℕ → ℚ × ℕ) : List ℕ → ℚ × Option ℕ → ℚ × Option ℕ
  | [], acc => acc
  | s :: rest, acc =>
      if acc.1 < (f s).1 then slideBest f rest ((f s).1, some (f s).2)
      else slideBest f rest acc

/-- `resampled_len = int(round(duration * target_fs))` with
`duration = max(t_end - t_start, 0.0)`. -/
def stage2Rlen (tStart tEnd targetFs : ℚ) : ℕ :=
  (pythonRound (max (tEnd - tStart) 0 * targetFs)).toNat

/-- `step_frames = max(1, int(round(step_sec * target_fs)))`. -/
def stage2StepFrames (stepSec targetFs : ℚ) : ℕ :=
  max 1 (pythonRound (stepSec * targetFs)).toNat

/-- `range(0, N - win_len + 1, step_frames)`: the candidate sub-window
start indices. -/
def stage2Starts (seqLen rlen stepFrames : ℕ) : List ℕ :=
  rangeStep (rlen - seqLen + 1) stepFrames

/-- The 50 Hz-grid resampling of the detection channels of the buffered
samples in `[t_start, t_end]` (`imu_res` in the source). -/
def stage2_resampled (entries : List (ℚ × Frame))
    (tStart tEnd targetFs : ℚ) (rlen : ℕ) : List (List ℚ) :=
  let sel := get_by_time_range entries tStart tEnd
  resampleGrid (sel.map (fun e => e.1))
    (sel.map (fun e => detIndices.map (ch e.2)))
    (timeGrid tStart (1 / targetFs) rlen) detIndices.length

/-- The per-candidate score: normalize the `seq_len`-row segment starting
at row `s` of the resampled sequence, run the model oracle, and take
`(p_max, pred_id) = (probs.max(), argmax(probs))`. -/
def windowScore (cfg : S2Cfg) (O : List (List ℚ) → List ℚ)
    (imuRes : List (List ℚ)) (s : ℕ) : ℚ × ℕ :=
  let seg := (imuRes.drop s).take cfg.seqLen
  let probs := O (preprocess cfg.mean cfg.std cfg.eps cfg.clipValue seg)
  (maxD probs, argmaxIdx probs)

/-- The candidate start-index list of a classification call
(named for use in theorem statements). -/
def stage2StartsOf (cfg : S2Cfg) (tStart tEnd stepSec targetFs : ℚ) :
    List ℕ :=
  stage2Starts cfg.seqLen (stage2Rlen tStart tEnd targetFs)
    (stage2StepFrames stepSec targetFs)

/-- The `(p_max, pred_id)` score of the candidate sub-window starting at
resampled row `s` of a classification call (named for use in theorem
statements). -/
def stage2ScoreOf (cfg : S2Cfg) (O : List (List ℚ) → List ℚ)
    (entries : List (ℚ × Frame)) (tStart tEnd targetFs : ℚ) (s : ℕ) :
    ℚ × ℕ :=
  windowScore cfg O (stage2_resampled entries tStart tEnd targetFs
    (stage2Rlen tStart tEnd targetFs)) s

/-- `Stage2Classifier.classify_in_time_range(t_start, t_end, step_sec,
target_fs)`: range query; `None` when fewer than 2 samples or fewer than 2
resampled points; centre crop/pad + single classification when the
resampled length is below `seq_len`; otherwise the sliding-window
best-of-candidates selection.  The oracle `O` abstracts
`softmax(model(x))`. -/
def classify_in_time_range (cfg : S2Cfg) (O : List (List ℚ) → List ℚ)
    (entries : List (ℚ × Frame)) (tStart tEnd stepSec targetFs : ℚ) :
    Option (ℕ × String × ℚ) :=
  let sel := get_by_time_range entries tStart tEnd
  if sel.length < 2 then none
  else
    let rlen := stage2Rlen tStart tEnd targetFs
    if rlen < 2 then none
    else
      let imuRes := stage2_resampled entries tStart tEnd targetFs rlen
      if rlen < cfg.seqLen then
        let probs := O (preprocess cfg.mean cfg.std cfg.eps cfg.clipValue
          (center_crop_or_pad imuRes cfg.seqLen))
        let bid := argmaxIdx probs
        some (bid, className cfg bid, probs.getD bid 0)
      else
        let starts := stage2Starts cfg.seqLen rlen
          (stage2StepFrames stepSec targetFs)
        match slideBest (windowScore cfg O imuRes) starts (-1, none) with
        | (_, none) => none
        | (bp, some bid) => some (bid, className cfg bid, bp)

/-! ## Definitions: concrete fixtures for the Stage-2 witness run -/

/-- A Stage-2 configuration with a 2-row model window and identity
normalization. -/
def s2WitCfg : S2Cfg :=
  { seqLen := 2, idToName := [], mean := [0, 0, 0, 0, 0, 0],
    std := [1, 1, 1, 1, 1, 1], eps := 1/1000000, clipValue := 10000 }

/-- A frame whose watch-acceleration x channel (index 5) reads 30. -/
def s2WitFrame : Frame := [0, 0, 0, 0, 0, 30] ++ List.replicate 24 0

/-- Two samples at t = 0 and t = 2: the first detection channel ramps
linearly from 0 to 30 over the window. -/
def s2WitBuf : List (ℚ × Frame) :=
  [(0, List.replicate 30 0), (2, s2WitFrame)]

/-- A single-class oracle whose confidence is the first cell of the
window, scaled into [0, 1]. -/
def s2WitOracle : List (List ℚ) → List ℚ :=
  fun w => [((w.headD []).headD 0) / 30]

/-! ## Definitions: session state machine (the `main_async` loop body)

The loop body is modelled as a step function on the session state, driven
by events: `noPacket now now2` is a receive timeout (`now` the
`time.time()` of the poll-path deadline check, `now2` the later
`time.time()` written into `last_stage1_time` on a poll-path dispatch);
`packet ts fr now2` is a received sample (`ts` its receipt timestamp,
`now2` the `time.time()` of a packet-path dispatch).  The sends to the
WebSocket host and the haptic channel are recorded as an output list
(the haptic peer-address bookkeeping, which has no bearing on the session
logic, is not modelled). -/

/-- `HOLD_ACCEL_THRESHOLD = 0.3` (m/s²). -/
def holdAccelThreshold : ℚ := 3/10

/-- `HOLD_GYRO_THRESHOLD = 0.15` (rad/s). -/
def holdGyroThreshold : ℚ := 3/20

/-- `HOLD_EXTEND_SEC = 2.0`. -/
def holdExtendSec : ℚ := 2

/-- `hold_check_interval = 0.5`. -/
def holdCheckInterval : ℚ := 1/2

/-- Startup configuration of the loop. -/
structure LoopCfg where
  s1 : S1Cfg
  s2 : S2Cfg
  cooldown : ℚ
  defaultCollectSec : ℚ
  stage2StepSec : ℚ
  targetFs : ℚ
  maxlen : ℕ
  gestureMap : List (ℕ × String)

/-- The mutable session state of the loop (plus the shared buffer and the
Stage-1 detector's rate-limit clock, which the loop manipulates). -/
structure LoopState where
  buffer : List (ℚ × Frame)
  last_infer_time : Option ℚ
  last_stage1_time : ℚ
  stage2_pending : Bool
  stage2_start_time : ℚ
  stage2_collect_sec : ℚ
  last_hold_check_time : ℚ
  last_hold_notify_time : ℚ
  consecutive_hold_count : ℕ
  is_holding : Bool

/-- The outbound sends of one loop iteration. -/
inductive Out where
  | stage1Detected (d : ℚ)
  | gestureRecognized (name : String) (conf : ℚ)
  | hostCommand (c : String)
  | holdExtended (r : ℚ)
  | haptic (preset : String)
  deriving DecidableEq

/-- One input to the loop body. -/
inductive Event where
  | noPacket (now now2 : ℚ)
  | packet (ts : ℚ) (fr : Frame) (now2 : ℚ)

/-- The stillness decision
`(accel_mag < HOLD_ACCEL_THRESHOLD) and (gyro_mag < HOLD_GYRO_THRESHOLD)`
of a hold check, evaluated on the squared magnitudes (equivalent, as both
sides are nonnegative); the `(+inf, +inf)` sentinel (`none`) is never
still.  `calculate_motion_magnitude(imu_buffer)` is called with the
default `window_sec = 0.3`. -/
def isStill (entries : List (ℚ × Frame)) : Bool :=
  match calculate_motion_magnitude entries (3/10) with
  | none => false
  | some (a2, g2) =>
      decide (a2 < holdAccelThreshold ^ 2) &&
      decide (g2 < holdGyroThreshold ^ 2)

/-- The hold-detection block of the packet path (entered only when
`ts - last_hold_check_time >= hold_check_interval`): update the check
clock, compute motion; on stillness increment the streak counter, and from
the second consecutive still check onward set
`stage2_collect_sec = ts - stage2_start_time + HOLD_EXTEND_SEC` (so the
deadline becomes `ts + HOLD_EXTEND_SEC`), emitting `hold_extended(-1)`
only when the holding flag first turns on; on motion reset the streak
counter and the holding flag. -/
def holdCheck (s : LoopState) (ts : ℚ) : LoopState × List Out :=
  let s0 := { s with last_hold_check_time := ts }
  if isStill s0.buffer then
    let c := s0.consecutive_hold_count + 1
    if 2 ≤ c then
      let s1 := { s0 with
        consecutive_hold_count := c,
        stage2_collect_sec := ts - s0.stage2_start_time + holdExtendSec }
      if s1.is_holding then (s1, [])
      else ({ s1 with is_holding := true }, [Out.holdExtended (-1)])
    else ({ s0 with consecutive_hold_count := c }, [])
  else ({ s0 with consecutive_hold_count := 0, is_holding := false }, [])

/-- The packet-path prefix: append the sample to the ring buffer, then run
the hold check when collecting and due. -/
def packetPre (cfg : LoopCfg) (s : LoopState) (ts : ℚ) (fr : Frame) :
    LoopState × List Out :=
  let sAdd := { s with buffer := rbAdd cfg.maxlen s.buffer ts fr }
  if sAdd.stage2_pending = true ∧
      holdCheckInterval ≤ ts - sAdd.last_hold_check_time then
    holdCheck sAdd ts
  else (sAdd, [])

/-- The sends of a Stage-2 dispatch: on a classification result, the
`gesture_recognized` event, the mapped host command when one exists, and
the `gesture_success` haptic; on `None`, the `gesture_fail` haptic. -/
def dispatchOuts (cfg : LoopCfg) (res : Option (ℕ × String × ℚ)) :
    List Out :=
  match res with
  | some (pid, name, conf) =>
      Out.gestureRecognized name conf ::
        ((match cfg.gestureMap.lookup pid with
          | some c => [Out.hostCommand c]
          | none => []) ++ [Out.haptic "gesture_success"])
  | none => [Out.haptic "gesture_fail"]

/-- Number of Stage-2 dispatches recorded in an output list: each dispatch
emits exactly one of the `gesture_success` / `gesture_fail` haptic
calls and nothing else does. -/
def dispatchCount (outs : List Out) : ℕ :=
  outs.countP (fun o => decide (o = Out.haptic "gesture_success" ∨
    o = Out.haptic "gesture_fail"))

/-- One iteration of the main loop, in source order.  Poll path: when
collecting and past the deadline, classify over
`[stage2_start_time, stage2_start_time + stage2_collect_sec]`, send the
results, clear the Collecting flag, the buffer and the rate-limit clock,
and start the cooldown (`last_stage1_time = time.time()`); note the hold
counters and `stage2_collect_sec` are *not* reset here.  Packet path:
append the sample; when collecting, run the due hold check and then the
deadline check — a dispatch here additionally resets the hold counters and
restores `stage2_collect_sec` to the configured default; when not
collecting, run Stage-1 entry detection, gated by the cooldown, and on
entry clear the buffer and rate-limit clock, record the entry time, open
the collection window, reset the hold state, and send the
`stage1_detected` event and haptic. -/
def step (cfg : LoopCfg) (O1 : List (List ℚ) → ℚ)
    (O2 : List (List ℚ) → List ℚ) (s : LoopState) :
    Event → LoopState × List Out
  | .noPacket now now2 =>
      if s.stage2_pending = true ∧
          s.stage2_start_time + s.stage2_collect_sec ≤ now then
        let res := classify_in_time_range cfg.s2 O2 s.buffer
          s.stage2_start_time (s.stage2_start_time + s.stage2_collect_sec)
          cfg.stage2StepSec cfg.targetFs
        ({ s with
            stage2_pending := false, buffer := [],
            last_infer_time := none, last_stage1_time := now2 },
          dispatchOuts cfg res)
      else (s, [])
  | .packet ts fr now2 =>
      let pre := packetPre cfg s ts fr
      let s1 := pre.1
      if s1.stage2_pending = true ∧
          s1.stage2_start_time + s1.stage2_collect_sec ≤ ts then
        let res := classify_in_time_range cfg.s2 O2 s1.buffer
          s1.stage2_start_time (s1.stage2_start_time + s1.stage2_collect_sec)
          cfg.stage2StepSec cfg.targetFs
        ({ s1 with
            stage2_pending := false, buffer := [],
            last_infer_time := none, last_stage1_time := now2,
            consecutive_hold_count := 0, is_holding := false,
            stage2_collect_sec := cfg.defaultCollectSec },
          pre.2 ++ dispatchOuts cfg res)
      else if s1.stage2_pending = true then (s1, pre.2)
      else
        let det := maybe_detect cfg.s1 O1 ⟨s1.buffer, s1.last_infer_time⟩ ts
        let s2 := { s1 with
          buffer := (det.2).buffer,
          last_infer_time := (det.2).lastInfer }
        if (det.1).1 = false then (s2, pre.2)
        else if ts - s2.last_stage1_time < cfg.cooldown then (s2, pre.2)
        else
          ({ s2 with
              buffer := [], last_infer_time := none,
              last_stage1_time := ts, stage2_pending := true,
              stage2_start_time := ts, consecutive_hold_count := 0,
              is_holding := false, last_hold_check_time := ts,
              last_hold_notify_time := 0,
              stage2_collect_sec := cfg.defaultCollectSec },
            pre.2 ++ [Out.stage1Detected cfg.defaultCollectSec,
              Out.haptic "stage1_detected"])

/-- Iterated loop steps (outputs discarded). -/
def run (cfg : LoopCfg) (O1 : List (List ℚ) → ℚ)
    (O2 : List (List ℚ) → List ℚ) (s : LoopState) (es : List Event) :
    LoopState :=
  es.foldl (fun t e => (step cfg O1 O2 t e).1) s

/-- `true` when processing `e` in state `s` performs the Idle → Collecting
transition. -/
def entryTransition (cfg : LoopCfg) (O1 : List (List ℚ) → ℚ)
    (O2 : List (List ℚ) → List ℚ) (s : LoopState) (e : Event) : Bool :=
  !s.stage2_pending && (step cfg O1 O2 s e).1.stage2_pending

/-- All time samples of an event are at least `t`, and its `time.time()`
samples are no earlier than its receive timestamp (wall-clock
monotonicity). -/
def eventLB (t : ℚ) : Event → Prop
  | .noPacket now now2 => t ≤ now ∧ now ≤ now2
  | .packet ts _ now2 => t ≤ ts ∧ ts ≤ now2

/-- A Stage-1 configuration with a 3-point window at 2 Hz over 1 s,
identity normalization, clip bound 10⁴ (the checkpoint default
`norm_clip_value = 1e4`). -/
def c6Cfg : S1Cfg :=
  { winLen := 3, windowSec := 1, stepSec := 1, threshold := 1/2,
    targetFs := 2, mean := [0, 0, 0, 0, 0, 0], std := [1, 1, 1, 1, 1, 1],
    eps := 1/1000000, clipValue := 10000 }

/-- A buffer with a sensor glitch: the watch-acceleration x channel jumps
from 0 to 20000 (twice the clip bound) between the two samples. -/
def c6CexBuf : List (ℚ × Frame) :=
  [(0, List.replicate 30 0), (1, [0, 0, 0, 0, 0, 20000] ++
    List.replicate 24 0)]

/-- A loop configuration for concrete runs: the concrete Stage-1/Stage-2
fixtures, 2 s cooldown, 2.5 s default collection. -/
def witLoopCfg : LoopCfg :=
  { s1 := s1CfgAt (1/2), s2 := s2WitCfg, cooldown := 2,
    defaultCollectSec := 5/2, stage2StepSec := 1/2, targetFs := 2,
    maxlen := 100, gestureMap := [] }

end IVO

namespace IVO

/-! ## Theorems -/

lemma get_by_time_range_eq_filter {α : Type} (entries : List (ℚ × α))
    (tStart tEnd : ℚ) :
    get_by_time_range entries tStart tEnd =
      entries.filter (fun e => tStart ≤ e.1 ∧ e.1 ≤ tEnd) := by
  induction entries with
  | nil => rfl
  | cons e rest ih =>
      by_cases h : e.1 < tStart ∨ e.1 > tEnd
      · have hnot : ¬ (tStart ≤ e.1 ∧ e.1 ≤ tEnd) := by
          rcases h with h | h
          · exact fun hc => absurd hc.1 (not_le.mpr h)
          · exact fun hc => absurd hc.2 (not_le.mpr h)
        simp [get_by_time_range, h, ih, List.filter_cons, hnot]
      · push_neg at h
        have hyes : tStart ≤ e.1 ∧ e.1 ≤ tEnd := h
        simp [get_by_time_range, ih, List.filter_cons, hyes,
          not_lt.mpr hyes.1, not_lt.mpr hyes.2]

/-- C9: `get_by_time_range(t_start, t_end)` returns exactly the buffered
entries whose timestamp `ts` satisfies `t_start ≤ ts ≤ t_end` (both bounds
inclusive), in original insertion order (the result is the order-preserving
filter of the buffer contents, hence a sublist of it), and the empty list
(the source's empty timestamp/frame arrays) when no entry matches.  The
operation is a total function — it never errors. -/
theorem get_by_time_range_spec {α : Type} (entries : List (ℚ × α))
    (tStart tEnd : ℚ) :
    get_by_time_range entries tStart tEnd =
      entries.filter (fun e => tStart ≤ e.1 ∧ e.1 ≤ tEnd) ∧
    (get_by_time_range entries tStart tEnd).Sublist entries ∧
    (∀ e, e ∈ get_by_time_range entries tStart tEnd ↔
      e ∈ entries ∧ tStart ≤ e.1 ∧ e.1 ≤ tEnd) ∧
    ((∀ e ∈ entries, ¬ (tStart ≤ e.1 ∧ e.1 ≤ tEnd)) →
      get_by_time_range entries tStart tEnd = []) := by
  have hf := get_by_time_range_eq_filter entries tStart tEnd
  refine ⟨hf, ?_, ?_, ?_⟩
  · rw [hf]; exact List.filter_sublist entries
  · intro e
    rw [hf, List.mem_filter]
    simp
  · intro hnone
    rw [hf, List.filter_eq_nil_iff]
    intro e he
    simpa using hnone e he

/-- Witness for `get_by_time_range_spec`: a concrete 3-entry buffer
queried over `[0, 2]` keeps exactly the first two entries (boundary
inclusive) in order. -/
theorem get_by_time_range_spec_witness :
    get_by_time_range [((0 : ℚ), (0 : ℚ)), (1, 0), (3, 0)] 0 2 =
      List.filter (fun e => 0 ≤ e.1 ∧ e.1 ≤ 2)
        [((0 : ℚ), (0 : ℚ)), (1, 0), (3, 0)] ∧
    get_by_time_range [((0 : ℚ), (0 : ℚ)), (1, 0), (3, 0)] 0 2 =
      [(0, 0), (1, 0)] := by
  refine ⟨(get_by_time_range_spec _ 0 2).1, ?_⟩
  norm_num [get_by_time_range]

lemma popVar_nonneg (xs : List ℚ) : 0 ≤ popVar xs := by
  unfold popVar
  apply div_nonneg
  · apply List.sum_nonneg
    intro x hx
    simp only [List.mem_map] at hx
    obtain ⟨y, -, rfl⟩ := hx
    positivity
  · exact Nat.cast_nonneg _

/-- C7 counterexample: a buffer in which 3 of the most recent 50 samples lie
within `window_sec = 0.3` of the latest timestamp, yet
`calculate_motion_magnitude` returns `(+inf, +inf)` (modelled `none`)
because of the `len(buffer) < 5` early return the claim omits — whereas the
claim (and the spec-worded model) prescribe the std-norm result
`(0, 0)` for identical frames. -/
theorem motion_magnitude_cex :
    (motionQualifying motionCexBuf (3/10)).length = 3 ∧
    calculate_motion_magnitude motionCexBuf (3/10) = none ∧
    motion_magnitude_specVersion motionCexBuf (3/10) = some (0, 0) := by
  refine ⟨?_, ?_, ?_⟩
  · norm_num [motionQualifying, motionCexBuf, rbGetRecent]
  · norm_num [calculate_motion_magnitude, motionCexBuf]
  · norm_num [motion_magnitude_specVersion, motionQualifying, motionCexBuf,
      rbGetRecent, varSum3, popVar, ch]

/-- C7 (amended: the source additionally requires at least 5 buffered
samples before computing anything): whenever the buffer holds at least 5
samples and at least 3 of the most recent 50 lie within `window_sec` of the
latest timestamp, `calculate_motion_magnitude` returns the pair of squared
Euclidean norms of the per-axis standard deviations of the watch's 3
acceleration channels (5–7) and 3 gyro channels (8–10) over exactly the
qualifying samples — and every returned pair's square roots are the
Euclidean norms of the per-axis std 3-vectors; whenever fewer than 3
qualifying samples exist, or the buffer holds fewer than 5 samples, it
returns the `(+inf, +inf)` sentinel (`none`).  Each conjunct carries only
its own premise, so the two sentinel cases are established for exactly the
buffers they describe. -/
theorem motion_magnitude_spec (entries : List (ℚ × Frame)) (w : ℚ) :
    (5 ≤ entries.length → 3 ≤ (motionQualifying entries w).length →
      calculate_motion_magnitude entries w =
        some (varSum3 ((motionQualifying entries w).map (fun e => e.2)) 5,
              varSum3 ((motionQualifying entries w).map (fun e => e.2)) 8)) ∧
    (∀ a g, calculate_motion_magnitude entries w = some (a, g) →
      Real.sqrt a =
        Real.sqrt
          ((Real.sqrt (popVar (((motionQualifying entries w).map
              (fun e => e.2)).map (fun fr => ch fr 5)))) ^ 2 +
           (Real.sqrt (popVar (((motionQualifying entries w).map
              (fun e => e.2)).map (fun fr => ch fr 6)))) ^ 2 +
           (Real.sqrt (popVar (((motionQualifying entries w).map
              (fun e => e.2)).map (fun fr => ch fr 7)))) ^ 2) ∧
      Real.sqrt g =
        Real.sqrt
          ((Real.sqrt (popVar (((motionQualifying entries w).map
              (fun e => e.2)).map (fun fr => ch fr 8)))) ^ 2 +
           (Real.sqrt (popVar (((motionQualifying entries w).map
              (fun e => e.2)).map (fun fr => ch fr 9)))) ^ 2 +
           (Real.sqrt (popVar (((motionQualifying entries w).map
              (fun e => e.2)).map (fun fr => ch fr 10)))) ^ 2)) ∧
    ((motionQualifying entries w).length < 3 →
      calculate_motion_magnitude entries w = none) ∧
    (entries.length < 5 → calculate_motion_magnitude entries w = none) := by
  refine ⟨?_, ?_, ?_, ?_⟩
  · intro h5 h3
    have hrecent : ¬ (rbGetRecent 50 entries).length < 3 := by
      have hq : (motionQualifying entries w).length ≤
          (rbGetRecent 50 entries).length := by
        unfold motionQualifying
        exact List.length_filter_le _ _
      omega
    unfold calculate_motion_magnitude
    rw [if_neg (by omega), if_neg hrecent, if_neg (by omega)]
  · intro a g hag
    unfold calculate_motion_magnitude at hag
    by_cases h1 : entries.length < 5
    · rw [if_pos h1] at hag
      exact absurd hag (by simp)
    · rw [if_neg h1] at hag
      by_cases h2 : (rbGetRecent 50 entries).length < 3
      · rw [if_pos h2] at hag
        exact absurd hag (by simp)
      · rw [if_neg h2] at hag
        by_cases h3 : (motionQualifying entries w).length < 3
        · rw [if_pos h3] at hag
          exact absurd hag (by simp)
        · rw [if_neg h3] at hag
          simp only [Option.some.injEq, Prod.mk.injEq] at hag
          obtain ⟨ha, hg⟩ := hag
          constructor
          · rw [← ha,
              Real.sq_sqrt (by exact_mod_cast popVar_nonneg _),
              Real.sq_sqrt (by exact_mod_cast popVar_nonneg _),
              Real.sq_sqrt (by exact_mod_cast popVar_nonneg _)]
            congr 1
            unfold varSum3
            push_cast
            norm_num
          · rw [← hg,
              Real.sq_sqrt (by exact_mod_cast popVar_nonneg _),
              Real.sq_sqrt (by exact_mod_cast popVar_nonneg _),
              Real.sq_sqrt (by exact_mod_cast popVar_nonneg _)]
            congr 1
            unfold varSum3
            push_cast
            norm_num
  · intro hlt
    unfold calculate_motion_magnitude
    by_cases h1 : entries.length < 5
    · rw [if_pos h1]
    · rw [if_neg h1]
      by_cases h2 : (rbGetRecent 50 entries).length < 3
      · rw [if_pos h2]
      · rw [if_neg h2, if_pos hlt]
  · intro hlt
    unfold calculate_motion_magnitude
    rw [if_pos hlt]

/-- Witness for `motion_magnitude_spec`, exercising all three regimes at
concrete inputs: a 5-sample buffer of identical frames (all qualify, the
variances vanish, squared magnitudes `(0, 0)`); a 5-sample buffer whose
latest sample at t = 10 leaves only 1 sample within the 0.3 s window
(fewer than 3 qualifying → sentinel `none`); and a 1-sample buffer
(fewer than 5 buffered → sentinel `none`). -/
theorem motion_magnitude_spec_witness :
    calculate_motion_magnitude
      [(0, List.replicate 30 0), (1/10, List.replicate 30 0),
       (2/10, List.replicate 30 0), (3/10, List.replicate 30 0),
       (4/10, List.replicate 30 0)] (3/10) =
      some (varSum3 ((motionQualifying
        [(0, List.replicate 30 0), (1/10, List.replicate 30 0),
         (2/10, List.replicate 30 0), (3/10, List.replicate 30 0),
         (4/10, List.replicate 30 0)] (3/10)).map (fun e => e.2)) 5,
        varSum3 ((motionQualifying
        [(0, List.replicate 30 0), (1/10, List.replicate 30 0),
         (2/10, List.replicate 30 0), (3/10, List.replicate 30 0),
         (4/10, List.replicate 30 0)] (3/10)).map (fun e => e.2)) 8) ∧
    calculate_motion_magnitude
      [(0, List.replicate 30 0), (1, List.replicate 30 0),
       (2, List.replicate 30 0), (3, List.replicate 30 0),
       (10, List.replicate 30 0)] (3/10) = none ∧
    calculate_motion_magnitude [((0 : ℚ), List.replicate 30 (0 : ℚ))]
      (3/10) = none :=
  ⟨(motion_magnitude_spec _ _).1 (by norm_num)
    (by norm_num [motionQualifying, rbGetRecent]),
   (motion_magnitude_spec _ _).2.2.1
    (by norm_num [motionQualifying, rbGetRecent]),
   (motion_magnitude_spec _ _).2.2.2 (by norm_num)⟩

/-- C10: every early return of `maybe_detect` — buffer shorter than the
model window, rate-limited (`now - last_infer_time < step_sec`), or fewer
than 2 samples in the trailing window — yields `(False, None)` and leaves
the detector state (the `last_infer_time` clock and the buffer contents)
unchanged; the buffer is never written at all, and `last_infer_time`
changes only when an inference actually executes, in which case it becomes
`now` and the result carries the inferred probability. -/
theorem maybe_detect_frame (cfg : S1Cfg) (O : List (List ℚ) → ℚ)
    (st : S1State) (now : ℚ) :
    ((maybe_detect cfg O st now).2.buffer = st.buffer) ∧
    (st.buffer.length < cfg.winLen →
      maybe_detect cfg O st now = ((false, none), st)) ∧
    (¬ st.buffer.length < cfg.winLen →
      rateLimited st.lastInfer now cfg.stepSec = true →
      maybe_detect cfg O st now = ((false, none), st)) ∧
    (¬ st.buffer.length < cfg.winLen →
      rateLimited st.lastInfer now cfg.stepSec = false →
      (get_by_time_range st.buffer (now - cfg.windowSec) now).length < 2 →
      maybe_detect cfg O st now = ((false, none), st)) ∧
    ((maybe_detect cfg O st now).2.lastInfer ≠ st.lastInfer →
      (maybe_detect cfg O st now).2.lastInfer = some now ∧
      ∃ p, (maybe_detect cfg O st now).1 =
        (decide (cfg.threshold ≤ p), some p)) := by
  unfold maybe_detect
  by_cases h1 : st.buffer.length < cfg.winLen
  · simp [h1]
  by_cases h2 : rateLimited st.lastInfer now cfg.stepSec
  · simp [h1, h2]
  by_cases h3 :
      (get_by_time_range st.buffer (now - cfg.windowSec) now).length < 2
  · simp [h1, h2, h3]
  · simp [h1, h2, h3]

/-- Witness for `maybe_detect_frame`: a 2-sample buffer is shorter than a
5-sample model window, so the call returns `(False, None)` and the state
is untouched. -/
theorem maybe_detect_frame_witness :
    maybe_detect { s1CfgAt (1/2) with winLen := 5 } (fun _ => 1)
      ⟨s1CexBuf, none⟩ 1 = ((false, none), ⟨s1CexBuf, none⟩) :=
  (maybe_detect_frame _ _ _ _).2.1 (by norm_num [s1CexBuf, s1CfgAt])

/-- C5 counterexample: the Stage-1 scorer does *not* return the raw
probability decision-free — `maybe_detect` itself compares the probability
against its configured threshold.  With identical buffer, oracle (constant
probability 3/4) and invocation time, changing only the detector's stored
threshold flips the boolean in the scorer's own return value from `True`
to `False`: the `probability ≥ threshold` decision is taken inside the
scorer component, contradicting the claim that the comparison happens only
in the session state machine. -/
theorem stage1_threshold_cex :
    (maybe_detect (s1CfgAt (1/2)) (fun _ => 3/4)
      ⟨s1CexBuf, none⟩ 1).1 = (true, some (3/4)) ∧
    (maybe_detect (s1CfgAt (9/10)) (fun _ => 3/4)
      ⟨s1CexBuf, none⟩ 1).1 = (false, some (3/4)) ∧
    s1CfgAt (1/2) = { s1CfgAt (9/10) with threshold := 1/2 } := by
  refine ⟨?_, ?_, ?_⟩
  · norm_num [maybe_detect, s1CfgAt, s1CexBuf, rateLimited,
      get_by_time_range]
  · norm_num [maybe_detect, s1CfgAt, s1CexBuf, rateLimited,
      get_by_time_range]
  · rfl

lemma slideBest_stay (f : ℕ → ℚ × ℕ) :
    ∀ (l : List ℕ) (acc : ℚ × Option ℕ),
    (∀ s ∈ l, (f s).1 ≤ acc.1) → slideBest f l acc = acc := by
  intro l
  induction l with
  | nil => intro acc _; rfl
  | cons s rest ih =>
      intro acc h
      have hs : (f s).1 ≤ acc.1 := h s (by simp)
      rw [slideBest, if_neg (not_lt.mpr hs)]
      exact ih acc (fun t ht => h t (by simp [ht]))

/-- The strict-update fold selects the first sub-window attaining the
maximum score (strictly above the initial accumulator). -/
lemma slideBest_char (f : ℕ → ℚ × ℕ) :
    ∀ (l : List ℕ) (acc : ℚ × Option ℕ),
    (∃ s ∈ l, acc.1 < (f s).1) →
    ∃ i, ∃ hi : i < l.length,
      slideBest f l acc =
        ((f (l.get ⟨i, hi⟩)).1, some (f (l.get ⟨i, hi⟩)).2) ∧
      acc.1 < (f (l.get ⟨i, hi⟩)).1 ∧
      (∀ j (hj : j < l.length),
        (f (l.get ⟨j, hj⟩)).1 ≤ (f (l.get ⟨i, hi⟩)).1) ∧
      (∀ j (hj : j < l.length), j < i →
        (f (l.get ⟨j, hj⟩)).1 < (f (l.get ⟨i, hi⟩)).1) := by
  intro l
  induction l with
  | nil => rintro acc ⟨s, hs, -⟩; exact absurd hs (List.not_mem_nil s)
  | cons s rest ih =>
      rintro acc ⟨t, ht, hlt⟩
      by_cases hs : acc.1 < (f s).1
      · rw [slideBest, if_pos hs]
        by_cases hrest : ∃ u ∈ rest, (f s).1 < (f u).1
        · obtain ⟨i, hi, heq, hgt, hmax, hbef⟩ :=
            ih ((f s).1, some (f s).2) hrest
          refine ⟨i + 1, by simpa using Nat.succ_lt_succ hi, ?_, ?_, ?_, ?_⟩
          · simpa using heq
          · exact lt_trans hs (by simpa using hgt)
          · intro j hj
            match j with
            | 0 => exact le_of_lt (by simpa using hgt)
            | j' + 1 =>
                have hj' : j' < rest.length := by simpa using hj
                simpa using hmax j' hj'
          · intro j hj hji
            match j with
            | 0 => simpa using hgt
            | j' + 1 =>
                have hj' : j' < rest.length := by simpa using hj
                simpa using hbef j' hj' (Nat.lt_of_succ_lt_succ hji)
        · push_neg at hrest
          rw [slideBest_stay f rest ((f s).1, some (f s).2) hrest]
          refine ⟨0, by simp, by simp, by simpa using hs, ?_, ?_⟩
          · intro j hj
            match j with
            | 0 => simp
            | j' + 1 =>
                have hj' : j' < rest.length := by simpa using hj
                simpa using hrest (rest.get ⟨j', hj'⟩) (rest.get_mem _ _)
          · intro j hj hj0
            exact absurd hj0 (Nat.not_lt_zero j)
      · rw [slideBest, if_neg hs]
        have htr : ∃ u ∈ rest, acc.1 < (f u).1 := by
          rcases List.mem_cons.mp ht with rfl | htr
          · exact absurd hlt hs
          · exact ⟨t, htr, hlt⟩
        obtain ⟨i, hi, heq, hgt, hmax, hbef⟩ := ih acc htr
        refine ⟨i + 1, by simpa using Nat.succ_lt_succ hi, ?_, ?_, ?_, ?_⟩
        · simpa using heq
        · simpa using hgt
        · intro j hj
          match j with
          | 0 =>
              have : (f s).1 ≤ acc.1 := not_lt.mp hs
              exact le_of_lt (lt_of_le_of_lt this (by simpa using hgt))
          | j' + 1 =>
              have hj' : j' < rest.length := by simpa using hj
              simpa using hmax j' hj'
        · intro j hj hji
          match j with
          | 0 =>
              have : (f s).1 ≤ acc.1 := not_lt.mp hs
              exact lt_of_le_of_lt this (by simpa using hgt)
          | j' + 1 =>
              have hj' : j' < rest.length := by simpa using hj
              simpa using hbef j' hj' (Nat.lt_of_succ_lt_succ hji)

lemma rangeStep_length (stop stp : ℕ) :
    (rangeStep stop stp).length = (stop + stp - 1) / stp := by
  simp [rangeStep]

lemma stage2Starts_ne_nil (seqLen rlen : ℕ) (stp : ℕ)
    (hstp : 1 ≤ stp) :
    0 < (stage2Starts seqLen rlen stp).length := by
  unfold stage2Starts
  rw [rangeStep_length]
  have hle : stp ≤ rlen - seqLen + 1 + stp - 1 := by omega
  exact Nat.one_le_div_iff (by omega) |>.mpr hle

/-- C2: when the resampled length reaches the model's required sequence
length, `classify_in_time_range` slides windows of that length across the
resampled sequence at start indices
`range(0, N - seq_len + 1, max(1, round(step_sec*target_fs)))`, classifies
every sub-window, and returns the `(class id, name, confidence)` of the
sub-window with the highest confidence, ties broken in favour of the
earliest sub-window (the best is replaced only on strictly greater
confidence); in particular, if one sub-window scores 19/20 = 0.95 and all
others score at most 1/2, that sub-window's class is selected regardless
of its position.  (The hypothesis `hpos` records that softmax confidences
are nonnegative, so the initial `best_prob = -1` is always beaten.) -/
theorem classify_best_of_candidates (cfg : S2Cfg)
    (O : List (List ℚ) → List ℚ) (entries : List (ℚ × Frame))
    (tStart tEnd stepSec targetFs : ℚ)
    (hsel : 2 ≤ (get_by_time_range entries tStart tEnd).length)
    (hrlen : 2 ≤ stage2Rlen tStart tEnd targetFs)
    (hwin : cfg.seqLen ≤ stage2Rlen tStart tEnd targetFs)
    (hpos : ∀ s ∈ stage2StartsOf cfg tStart tEnd stepSec targetFs,
      0 ≤ (stage2ScoreOf cfg O entries tStart tEnd targetFs s).1) :
    let st := stage2StartsOf cfg tStart tEnd stepSec targetFs
    let f := stage2ScoreOf cfg O entries tStart tEnd targetFs
    (∃ i, ∃ hi : i < st.length,
      (classify_in_time_range cfg O entries tStart tEnd stepSec targetFs =
        some ((f (st.get ⟨i, hi⟩)).2, className cfg (f (st.get ⟨i, hi⟩)).2,
          (f (st.get ⟨i, hi⟩)).1)) ∧
      (∀ j (hj : j < st.length),
        (f (st.get ⟨j, hj⟩)).1 ≤ (f (st.get ⟨i, hi⟩)).1) ∧
      (∀ j (hj : j < st.length), j < i →
        (f (st.get ⟨j, hj⟩)).1 < (f (st.get ⟨i, hi⟩)).1)) ∧
    (∀ j (hj : j < st.length), (f (st.get ⟨j, hj⟩)).1 = 19/20 →
      (∀ k (hk : k < st.length), k ≠ j →
        (f (st.get ⟨k, hk⟩)).1 ≤ 1/2) →
      classify_in_time_range cfg O entries tStart tEnd stepSec targetFs =
        some ((f (st.get ⟨j, hj⟩)).2, className cfg (f (st.get ⟨j, hj⟩)).2,
          19/20)) := by
  intro st f
  have hSF1 : 1 ≤ stage2StepFrames stepSec targetFs := le_max_left _ _
  have hne : 0 < st.length := stage2Starts_ne_nil _ _ _ hSF1
  have hex : ∃ s ∈ st, ((-1 : ℚ), (none : Option ℕ)).1 < (f s).1 := by
    refine ⟨st.get ⟨0, hne⟩, st.get_mem _ _, ?_⟩
    have h0 := hpos (st.get ⟨0, hne⟩) (st.get_mem _ _)
    simpa using lt_of_lt_of_le (by norm_num : (-1 : ℚ) < 0) h0
  obtain ⟨i, hi, heq, -, hmax, hbef⟩ := slideBest_char f st _ hex
  have hclassify : classify_in_time_range cfg O entries tStart tEnd stepSec
      targetFs = some ((f (st.get ⟨i, hi⟩)).2,
        className cfg (f (st.get ⟨i, hi⟩)).2, (f (st.get ⟨i, hi⟩)).1) := by
    unfold classify_in_time_range
    rw [if_neg (by omega), if_neg (by omega), if_neg (by omega)]
    have hst : stage2Starts cfg.seqLen (stage2Rlen tStart tEnd targetFs)
        (stage2StepFrames stepSec targetFs) = st := rfl
    have hf : windowScore cfg O (stage2_resampled entries tStart tEnd
        targetFs (stage2Rlen tStart tEnd targetFs)) = f := rfl
    rw [hst, hf]
    show (match slideBest f st (-1, none) with
      | (_, none) => none
      | (bp, some bid) => some (bid, className cfg bid, bp)) =
      some ((f (st.get ⟨i, hi⟩)).2, className cfg (f (st.get ⟨i, hi⟩)).2,
        (f (st.get ⟨i, hi⟩)).1)
    rw [heq]
  refine ⟨⟨i, hi, hclassify, hmax, hbef⟩, ?_⟩
  intro j hj hj95 hothers
  have hij : i = j := by
    by_contra hne2
    have h1 : (f (st.get ⟨i, hi⟩)).1 ≤ 1/2 := hothers i hi hne2
    have h2 : (19 : ℚ)/20 ≤ (f (st.get ⟨i, hi⟩)).1 := by
      have h3 := hmax j hj
      rw [hj95] at h3
      exact h3
    linarith
  subst hij
  rw [hclassify, hj95]

/-- Witness for `classify_best_of_candidates`: a concrete 2-sample buffer
resampled to 4 points, model window 2, step 1 — candidate starts
`[0, 1, 2]` with oracle confidences `0, 1/4, 1/2`; the theorem applies and
yields the best-of-candidates selection. -/
theorem classify_best_of_candidates_witness :
    ∃ i, ∃ hi : i < (stage2StartsOf s2WitCfg 0 2 (1/2) 2).length,
      (classify_in_time_range s2WitCfg s2WitOracle s2WitBuf 0 2 (1/2) 2 =
        some ((stage2ScoreOf s2WitCfg s2WitOracle s2WitBuf 0 2 2
            ((stage2StartsOf s2WitCfg 0 2 (1/2) 2).get ⟨i, hi⟩)).2,
          className s2WitCfg
            (stage2ScoreOf s2WitCfg s2WitOracle s2WitBuf 0 2 2
              ((stage2StartsOf s2WitCfg 0 2 (1/2) 2).get ⟨i, hi⟩)).2,
          (stage2ScoreOf s2WitCfg s2WitOracle s2WitBuf 0 2 2
            ((stage2StartsOf s2WitCfg 0 2 (1/2) 2).get ⟨i, hi⟩)).1)) ∧
      (∀ j (hj : j < (stage2StartsOf s2WitCfg 0 2 (1/2) 2).length),
        (stage2ScoreOf s2WitCfg s2WitOracle s2WitBuf 0 2 2
          ((stage2StartsOf s2WitCfg 0 2 (1/2) 2).get ⟨j, hj⟩)).1 ≤
        (stage2ScoreOf s2WitCfg s2WitOracle s2WitBuf 0 2 2
          ((stage2StartsOf s2WitCfg 0 2 (1/2) 2).get ⟨i, hi⟩)).1) ∧
      (∀ j (hj : j < (stage2StartsOf s2WitCfg 0 2 (1/2) 2).length), j < i →
        (stage2ScoreOf s2WitCfg s2WitOracle s2WitBuf 0 2 2
          ((stage2StartsOf s2WitCfg 0 2 (1/2) 2).get ⟨j, hj⟩)).1 <
        (stage2ScoreOf s2WitCfg s2WitOracle s2WitBuf 0 2 2
          ((stage2StartsOf s2WitCfg 0 2 (1/2) 2).get ⟨i, hi⟩)).1) := by
  have hrlen4 : stage2Rlen (0:ℚ) 2 2 = 4 := by
    norm_num [stage2Rlen, pythonRound]
    rfl
  have hsf1 : stage2StepFrames (1/2 : ℚ) 2 = 1 := by
    norm_num [stage2StepFrames, pythonRound]
  have hstarts : stage2StartsOf s2WitCfg 0 2 (1/2) 2 = [0, 1, 2] := by
    norm_num [stage2StartsOf, stage2Starts, hrlen4, hsf1,
      rangeStep, s2WitCfg, List.range_succ]
  have h := classify_best_of_candidates s2WitCfg s2WitOracle s2WitBuf
    0 2 (1/2) 2
    (by norm_num [get_by_time_range, s2WitBuf])
    (by rw [hrlen4]; norm_num)
    (by rw [hrlen4]; norm_num [s2WitCfg])
    (by
      rw [hstarts]
      intro s hs
      fin_cases hs <;>
        norm_num [stage2ScoreOf, windowScore, stage2_resampled, hrlen4,
          get_by_time_range, s2WitBuf, s2WitCfg,
          s2WitOracle, s2WitFrame, resampleGrid, timeGrid, column, interp,
          preprocess, preprocessRow, clipQ, maxD, argmaxIdx, ch,
          detIndices, List.range_succ])
  exact h.1

lemma dispatchCount_append (a b : List Out) :
    dispatchCount (a ++ b) = dispatchCount a + dispatchCount b :=
  List.countP_append _ _ _

lemma dispatchOuts_count (cfg : LoopCfg) (res : Option (ℕ × String × ℚ)) :
    dispatchCount (dispatchOuts cfg res) = 1 := by
  cases res with
  | none => simp [dispatchOuts, dispatchCount]
  | some r =>
      obtain ⟨pid, name, conf⟩ := r
      cases h : cfg.gestureMap.lookup pid <;>
        simp [dispatchOuts, dispatchCount, h]

lemma holdCheck_outs_count (s : LoopState) (ts : ℚ) :
    dispatchCount (holdCheck s ts).2 = 0 := by
  unfold holdCheck
  dsimp only
  split_ifs <;> simp [dispatchCount]

lemma packetPre_outs_count (cfg : LoopCfg) (s : LoopState) (ts : ℚ)
    (fr : Frame) : dispatchCount (packetPre cfg s ts fr).2 = 0 := by
  unfold packetPre
  dsimp only
  split_ifs with h
  · exact holdCheck_outs_count _ _
  · simp [dispatchCount]

lemma holdCheck_pending (s : LoopState) (ts : ℚ) :
    (holdCheck s ts).1.stage2_pending = s.stage2_pending := by
  unfold holdCheck
  dsimp only
  split_ifs <;> rfl

lemma holdCheck_start (s : LoopState) (ts : ℚ) :
    (holdCheck s ts).1.stage2_start_time = s.stage2_start_time := by
  unfold holdCheck
  dsimp only
  split_ifs <;> rfl

lemma holdCheck_last_stage1 (s : LoopState) (ts : ℚ) :
    (holdCheck s ts).1.last_stage1_time = s.last_stage1_time := by
  unfold holdCheck
  dsimp only
  split_ifs <;> rfl

lemma packetPre_pending (cfg : LoopCfg) (s : LoopState) (ts : ℚ)
    (fr : Frame) :
    (packetPre cfg s ts fr).1.stage2_pending = s.stage2_pending := by
  unfold packetPre
  dsimp only
  split_ifs with h
  · rw [holdCheck_pending]
  · rfl

lemma packetPre_last_stage1 (cfg : LoopCfg) (s : LoopState) (ts : ℚ)
    (fr : Frame) :
    (packetPre cfg s ts fr).1.last_stage1_time = s.last_stage1_time := by
  unfold packetPre
  dsimp only
  split_ifs with h
  · rw [holdCheck_last_stage1]
  · rfl

lemma stage1_outs_count (d : ℚ) :
    dispatchCount [Out.stage1Detected d, Out.haptic "stage1_detected"] =
      0 := by
  simp [dispatchCount]

lemma dispatchCount_nil : dispatchCount [] = 0 := rfl

lemma step_idle_no_dispatch (cfg : LoopCfg) (O1 : List (List ℚ) → ℚ)
    (O2 : List (List ℚ) → List ℚ) (s : LoopState)
    (h : s.stage2_pending = false) (e : Event) :
    dispatchCount (step cfg O1 O2 s e).2 = 0 := by
  cases e with
  | noPacket now now2 =>
      rw [step, if_neg (by simp [h])]
      rfl
  | packet ts fr now2 =>
      rw [step]
      dsimp only
      rw [if_neg (by simp [packetPre_pending, h]),
        if_neg (by simp [packetPre_pending, h])]
      have hpre := packetPre_outs_count cfg s ts fr
      split_ifs <;> dsimp only
      · exact hpre
      · exact hpre
      · rw [dispatchCount_append, hpre, stage1_outs_count]

lemma step_dispatchCount_le_one (cfg : LoopCfg) (O1 : List (List ℚ) → ℚ)
    (O2 : List (List ℚ) → List ℚ) (s : LoopState) (e : Event) :
    dispatchCount (step cfg O1 O2 s e).2 ≤ 1 := by
  cases e with
  | noPacket now now2 =>
      rw [step]
      split_ifs with h
      · rw [dispatchOuts_count]
      · rw [dispatchCount_nil]
        omega
  | packet ts fr now2 =>
      rw [step]
      dsimp only
      have hpre := packetPre_outs_count cfg s ts fr
      split_ifs <;> dsimp only
      · rw [dispatchCount_append, hpre, dispatchOuts_count]
      · rw [hpre]
        omega
      · rw [hpre]
        omega
      · rw [hpre]
        omega
      · rw [dispatchCount_append, hpre, stage1_outs_count]
        omega

lemma step_dispatch_clears (cfg : LoopCfg) (O1 : List (List ℚ) → ℚ)
    (O2 : List (List ℚ) → List ℚ) (s : LoopState) (e : Event)
    (h : 1 ≤ dispatchCount (step cfg O1 O2 s e).2) :
    (step cfg O1 O2 s e).1.stage2_pending = false := by
  cases e with
  | noPacket now now2 =>
      rw [step] at h ⊢
      split_ifs at h ⊢ with hc
      · rfl
      · exfalso
        rw [dispatchCount_nil] at h
        omega
  | packet ts fr now2 =>
      have hpre := packetPre_outs_count cfg s ts fr
      rw [step] at h ⊢
      dsimp only at h ⊢
      split_ifs at h ⊢ with h1 h2 h3 h4
      · rfl
      · exfalso
        dsimp only at h
        rw [hpre] at h
        omega
      · exfalso
        dsimp only at h
        rw [hpre] at h
        omega
      · exfalso
        dsimp only at h
        rw [hpre] at h
        omega
      · exfalso
        dsimp only at h
        rw [dispatchCount_append, hpre, stage1_outs_count] at h
        omega

/-- C1: per loop iteration at most one Stage-2 classification/dispatch
occurs; any iteration that dispatches ends with the Collecting flag
(`stage2_pending`) cleared; an iteration started with the flag clear never
dispatches; and from a Collecting state in which the deadline crossing is
observed — on the no-packet poll path (`deadline ≤ now`) or on the
new-sample path (`deadline ≤ ts` after the hold check) — the iteration
dispatches exactly once, clears the flag, and every next iteration
dispatches zero times, so observing the same crossing on both paths in the
same tick dispatches exactly once. -/
theorem stage2_dispatch_once (cfg : LoopCfg) (O1 : List (List ℚ) → ℚ)
    (O2 : List (List ℚ) → List ℚ) (s : LoopState) :
    (∀ e, dispatchCount (step cfg O1 O2 s e).2 ≤ 1) ∧
    (∀ e, 1 ≤ dispatchCount (step cfg O1 O2 s e).2 →
      (step cfg O1 O2 s e).1.stage2_pending = false) ∧
    (s.stage2_pending = false →
      ∀ e, dispatchCount (step cfg O1 O2 s e).2 = 0) ∧
    (s.stage2_pending = true → ∀ now now2,
      s.stage2_start_time + s.stage2_collect_sec ≤ now →
      dispatchCount (step cfg O1 O2 s (Event.noPacket now now2)).2 = 1 ∧
      (step cfg O1 O2 s (Event.noPacket now now2)).1.stage2_pending =
        false ∧
      (∀ e2, dispatchCount (step cfg O1 O2
        (step cfg O1 O2 s (Event.noPacket now now2)).1 e2).2 = 0)) ∧
    (s.stage2_pending = true → ∀ ts fr now2,
      (packetPre cfg s ts fr).1.stage2_start_time +
        (packetPre cfg s ts fr).1.stage2_collect_sec ≤ ts →
      dispatchCount (step cfg O1 O2 s (Event.packet ts fr now2)).2 = 1 ∧
      (step cfg O1 O2 s (Event.packet ts fr now2)).1.stage2_pending =
        false ∧
      (∀ e2, dispatchCount (step cfg O1 O2
        (step cfg O1 O2 s (Event.packet ts fr now2)).1 e2).2 = 0)) := by
  refine ⟨step_dispatchCount_le_one cfg O1 O2 s,
    step_dispatch_clears cfg O1 O2 s,
    step_idle_no_dispatch cfg O1 O2 s, ?_, ?_⟩
  · intro hp now now2 hcross
    have hcond : s.stage2_pending = true ∧
        s.stage2_start_time + s.stage2_collect_sec ≤ now := ⟨hp, hcross⟩
    have h1 : dispatchCount
        (step cfg O1 O2 s (Event.noPacket now now2)).2 = 1 := by
      rw [step, if_pos hcond, dispatchOuts_count]
    have h2 : (step cfg O1 O2 s (Event.noPacket now now2)).1.stage2_pending
        = false := by
      rw [step, if_pos hcond]
    exact ⟨h1, h2, fun e2 => step_idle_no_dispatch cfg O1 O2 _ h2 e2⟩
  · intro hp ts fr now2 hcross
    have hpp : (packetPre cfg s ts fr).1.stage2_pending = true := by
      rw [packetPre_pending, hp]
    have hcond : (packetPre cfg s ts fr).1.stage2_pending = true ∧
        (packetPre cfg s ts fr).1.stage2_start_time +
          (packetPre cfg s ts fr).1.stage2_collect_sec ≤ ts :=
      ⟨hpp, hcross⟩
    have h1 : dispatchCount
        (step cfg O1 O2 s (Event.packet ts fr now2)).2 = 1 := by
      rw [step, if_pos hcond, dispatchCount_append, packetPre_outs_count,
        dispatchOuts_count]
    have h2 : (step cfg O1 O2 s (Event.packet ts fr now2)).1.stage2_pending
        = false := by
      rw [step, if_pos hcond]
    exact ⟨h1, h2, fun e2 => step_idle_no_dispatch cfg O1 O2 _ h2 e2⟩

/-- Witness for `stage2_dispatch_once`: a concrete Collecting state whose
deadline (0 + 1) has passed at `now = 2` — the poll-path tick dispatches
exactly once, clears the flag, and an identical second observation of the
crossing dispatches zero times. -/
theorem stage2_dispatch_once_witness :
    dispatchCount (step witLoopCfg (fun _ => 1) (fun _ => [1])
      { buffer := [], last_infer_time := none, last_stage1_time := 0,
        stage2_pending := true, stage2_start_time := 0,
        stage2_collect_sec := 1, last_hold_check_time := 0,
        last_hold_notify_time := 0, consecutive_hold_count := 0,
        is_holding := false } (Event.noPacket 2 2)).2 = 1 ∧
    (step witLoopCfg (fun _ => 1) (fun _ => [1])
      { buffer := [], last_infer_time := none, last_stage1_time := 0,
        stage2_pending := true, stage2_start_time := 0,
        stage2_collect_sec := 1, last_hold_check_time := 0,
        last_hold_notify_time := 0, consecutive_hold_count := 0,
        is_holding := false } (Event.noPacket 2 2)).1.stage2_pending =
      false ∧
    (∀ e2, dispatchCount (step witLoopCfg (fun _ => 1) (fun _ => [1])
      (step witLoopCfg (fun _ => 1) (fun _ => [1])
        { buffer := [], last_infer_time := none, last_stage1_time := 0,
          stage2_pending := true, stage2_start_time := 0,
          stage2_collect_sec := 1, last_hold_check_time := 0,
          last_hold_notify_time := 0, consecutive_hold_count := 0,
          is_holding := false } (Event.noPacket 2 2)).1 e2).2 = 0) :=
  (stage2_dispatch_once witLoopCfg (fun _ => 1) (fun _ => [1])
    _).2.2.2.1 rfl 2 2 (by norm_num)

/-- C3 counterexample: on a *poll-path* (no-packet) dispatch the hold
counters and the collection duration are *not* reset.  A Collecting state
with a hold streak of 2, the holding flag set and an extended collection
duration of 5 s dispatches at `now = 10` (one dispatch, flag cleared,
buffer cleared, rate-limit clock cleared, `last_stage1_time` updated), yet
afterwards `consecutive_hold_count` is still 2, `is_holding` is still
`true`, and `stage2_collect_sec` is still 5 — not the configured default
5/2 the claim requires. -/
theorem dispatch_reset_cex :
    dispatchCount (step witLoopCfg (fun _ => 1) (fun _ => [1])
      { buffer := [], last_infer_time := some 0, last_stage1_time := 0,
        stage2_pending := true, stage2_start_time := 0,
        stage2_collect_sec := 5, last_hold_check_time := 0,
        last_hold_notify_time := 0, consecutive_hold_count := 2,
        is_holding := true } (Event.noPacket 10 10)).2 = 1 ∧
    ((step witLoopCfg (fun _ => 1) (fun _ => [1])
      { buffer := [], last_infer_time := some 0, last_stage1_time := 0,
        stage2_pending := true, stage2_start_time := 0,
        stage2_collect_sec := 5, last_hold_check_time := 0,
        last_hold_notify_time := 0, consecutive_hold_count := 2,
        is_holding := true } (Event.noPacket 10 10)).1.stage2_pending =
      false) ∧
    ((step witLoopCfg (fun _ => 1) (fun _ => [1])
      { buffer := [], last_infer_time := some 0, last_stage1_time := 0,
        stage2_pending := true, stage2_start_time := 0,
        stage2_collect_sec := 5, last_hold_check_time := 0,
        last_hold_notify_time := 0, consecutive_hold_count := 2,
        is_holding := true } (Event.noPacket 10 10)).1.consecutive_hold_count
      = 2) ∧
    ((step witLoopCfg (fun _ => 1) (fun _ => [1])
      { buffer := [], last_infer_time := some 0, last_stage1_time := 0,
        stage2_pending := true, stage2_start_time := 0,
        stage2_collect_sec := 5, last_hold_check_time := 0,
        last_hold_notify_time := 0, consecutive_hold_count := 2,
        is_holding := true } (Event.noPacket 10 10)).1.is_holding = true) ∧
    ((step witLoopCfg (fun _ => 1) (fun _ => [1])
      { buffer := [], last_infer_time := some 0, last_stage1_time := 0,
        stage2_pending := true, stage2_start_time := 0,
        stage2_collect_sec := 5, last_hold_check_time := 0,
        last_hold_notify_time := 0, consecutive_hold_count := 2,
        is_holding := true } (Event.noPacket 10 10)).1.stage2_collect_sec
      = 5) ∧
    witLoopCfg.defaultCollectSec = 5/2 := by
  have hstep : step witLoopCfg (fun _ => 1) (fun _ => [1])
      { buffer := [], last_infer_time := some 0, last_stage1_time := 0,
        stage2_pending := true, stage2_start_time := 0,
        stage2_collect_sec := 5, last_hold_check_time := 0,
        last_hold_notify_time := 0, consecutive_hold_count := 2,
        is_holding := true } (Event.noPacket 10 10) =
      ({ buffer := [],
         last_infer_time := none,
         last_stage1_time := 10,
         stage2_pending := false,
         stage2_start_time := 0,
         stage2_collect_sec := 5,
         last_hold_check_time := 0,
         last_hold_notify_time := 0,
         consecutive_hold_count := 2,
         is_holding := true }, [Out.haptic "gesture_fail"]) := by
    rw [step, if_pos (by norm_num)]
    norm_num [classify_in_time_range, get_by_time_range, dispatchOuts]
  rw [hstep]
  refine ⟨?_, rfl, rfl, rfl, rfl, rfl⟩
  simp [dispatchCount]

/-- C3 (amended: the full reset happens only on the new-sample path; the
poll path resets the buffer, the rate-limit clock, the Collecting flag and
the cooldown clock, but leaves the hold counters and the collection
duration untouched — they are re-initialized at the next Idle → Collecting
transition): postconditions of the two dispatch paths. -/
theorem dispatch_reset_spec (cfg : LoopCfg) (O1 : List (List ℚ) → ℚ)
    (O2 : List (List ℚ) → List ℚ) (s : LoopState)
    (hp : s.stage2_pending = true) :
    (∀ now now2 : ℚ, s.stage2_start_time + s.stage2_collect_sec ≤ now →
      (step cfg O1 O2 s (Event.noPacket now now2)).1.stage2_pending =
        false ∧
      (step cfg O1 O2 s (Event.noPacket now now2)).1.buffer = [] ∧
      (step cfg O1 O2 s (Event.noPacket now now2)).1.last_infer_time =
        none ∧
      (step cfg O1 O2 s (Event.noPacket now now2)).1.last_stage1_time =
        now2 ∧
      (step cfg O1 O2 s
        (Event.noPacket now now2)).1.consecutive_hold_count =
        s.consecutive_hold_count ∧
      (step cfg O1 O2 s (Event.noPacket now now2)).1.is_holding =
        s.is_holding ∧
      (step cfg O1 O2 s (Event.noPacket now now2)).1.stage2_collect_sec =
        s.stage2_collect_sec) ∧
    (∀ (ts : ℚ) (fr : Frame) (now2 : ℚ),
      (packetPre cfg s ts fr).1.stage2_start_time +
        (packetPre cfg s ts fr).1.stage2_collect_sec ≤ ts →
      (step cfg O1 O2 s (Event.packet ts fr now2)).1.stage2_pending =
        false ∧
      (step cfg O1 O2 s (Event.packet ts fr now2)).1.buffer = [] ∧
      (step cfg O1 O2 s (Event.packet ts fr now2)).1.last_infer_time =
        none ∧
      (step cfg O1 O2 s (Event.packet ts fr now2)).1.last_stage1_time =
        now2 ∧
      (step cfg O1 O2 s
        (Event.packet ts fr now2)).1.consecutive_hold_count = 0 ∧
      (step cfg O1 O2 s (Event.packet ts fr now2)).1.is_holding = false ∧
      (step cfg O1 O2 s (Event.packet ts fr now2)).1.stage2_collect_sec =
        cfg.defaultCollectSec) := by
  constructor
  · intro now now2 hcross
    rw [step, if_pos ⟨hp, hcross⟩]
    exact ⟨rfl, rfl, rfl, rfl, rfl, rfl, rfl⟩
  · intro ts fr now2 hcross
    have hpp : (packetPre cfg s ts fr).1.stage2_pending = true := by
      rw [packetPre_pending, hp]
    rw [step]
    dsimp only
    rw [if_pos ⟨hpp, hcross⟩]
    exact ⟨rfl, rfl, rfl, rfl, rfl, rfl, rfl⟩

/-- Witness for `dispatch_reset_spec`: both dispatch paths fire from a
concrete Collecting state whose 1 s window starting at 0 has expired at
time 2 (poll path) and at receipt time 2 (sample path). -/
theorem dispatch_reset_spec_witness :
    ((step witLoopCfg (fun _ => 1) (fun _ => [1])
      { buffer := [], last_infer_time := some 0, last_stage1_time := 0,
        stage2_pending := true, stage2_start_time := 0,
        stage2_collect_sec := 1, last_hold_check_time := 10,
        last_hold_notify_time := 0, consecutive_hold_count := 0,
        is_holding := false } (Event.noPacket 2 2)).1.stage2_pending =
      false ∧
    (step witLoopCfg (fun _ => 1) (fun _ => [1])
      { buffer := [], last_infer_time := some 0, last_stage1_time := 0,
        stage2_pending := true, stage2_start_time := 0,
        stage2_collect_sec := 1, last_hold_check_time := 10,
        last_hold_notify_time := 0, consecutive_hold_count := 0,
        is_holding := false } (Event.noPacket 2 2)).1.buffer = [] ∧
    (step witLoopCfg (fun _ => 1) (fun _ => [1])
      { buffer := [], last_infer_time := some 0, last_stage1_time := 0,
        stage2_pending := true, stage2_start_time := 0,
        stage2_collect_sec := 1, last_hold_check_time := 10,
        last_hold_notify_time := 0, consecutive_hold_count := 0,
        is_holding := false } (Event.noPacket 2 2)).1.last_infer_time =
      none ∧
    (step witLoopCfg (fun _ => 1) (fun _ => [1])
      { buffer := [], last_infer_time := some 0, last_stage1_time := 0,
        stage2_pending := true, stage2_start_time := 0,
        stage2_collect_sec := 1, last_hold_check_time := 10,
        last_hold_notify_time := 0, consecutive_hold_count := 0,
        is_holding := false } (Event.noPacket 2 2)).1.last_stage1_time =
      2 ∧
    (step witLoopCfg (fun _ => 1) (fun _ => [1])
      { buffer := [], last_infer_time := some 0, last_stage1_time := 0,
        stage2_pending := true, stage2_start_time := 0,
        stage2_collect_sec := 1, last_hold_check_time := 10,
        last_hold_notify_time := 0, consecutive_hold_count := 0,
        is_holding := false }
        (Event.noPacket 2 2)).1.consecutive_hold_count = 0 ∧
    (step witLoopCfg (fun _ => 1) (fun _ => [1])
      { buffer := [], last_infer_time := some 0, last_stage1_time := 0,
        stage2_pending := true, stage2_start_time := 0,
        stage2_collect_sec := 1, last_hold_check_time := 10,
        last_hold_notify_time := 0, consecutive_hold_count := 0,
        is_holding := false } (Event.noPacket 2 2)).1.is_holding =
      false ∧
    (step witLoopCfg (fun _ => 1) (fun _ => [1])
      { buffer := [], last_infer_time := some 0, last_stage1_time := 0,
        stage2_pending := true, stage2_start_time := 0,
        stage2_collect_sec := 1, last_hold_check_time := 10,
        last_hold_notify_time := 0, consecutive_hold_count := 0,
        is_holding := false } (Event.noPacket 2 2)).1.stage2_collect_sec
      = 1) ∧
    ((step witLoopCfg (fun _ => 1) (fun _ => [1])
      { buffer := [], last_infer_time := some 0, last_stage1_time := 0,
        stage2_pending := true, stage2_start_time := 0,
        stage2_collect_sec := 1, last_hold_check_time := 10,
        last_hold_notify_time := 0, consecutive_hold_count := 0,
        is_holding := false }
        (Event.packet 2 (List.replicate 30 0) 2)).1.stage2_pending =
      false ∧
    (step witLoopCfg (fun _ => 1) (fun _ => [1])
      { buffer := [], last_infer_time := some 0, last_stage1_time := 0,
        stage2_pending := true, stage2_start_time := 0,
        stage2_collect_sec := 1, last_hold_check_time := 10,
        last_hold_notify_time := 0, consecutive_hold_count := 0,
        is_holding := false }
        (Event.packet 2 (List.replicate 30 0) 2)).1.buffer = [] ∧
    (step witLoopCfg (fun _ => 1) (fun _ => [1])
      { buffer := [], last_infer_time := some 0, last_stage1_time := 0,
        stage2_pending := true, stage2_start_time := 0,
        stage2_collect_sec := 1, last_hold_check_time := 10,
        last_hold_notify_time := 0, consecutive_hold_count := 0,
        is_holding := false }
        (Event.packet 2 (List.replicate 30 0) 2)).1.last_infer_time =
      none ∧
    (step witLoopCfg (fun _ => 1) (fun _ => [1])
      { buffer := [], last_infer_time := some 0, last_stage1_time := 0,
        stage2_pending := true, stage2_start_time := 0,
        stage2_collect_sec := 1, last_hold_check_time := 10,
        last_hold_notify_time := 0, consecutive_hold_count := 0,
        is_holding := false }
        (Event.packet 2 (List.replicate 30 0) 2)).1.last_stage1_time =
      2 ∧
    (step witLoopCfg (fun _ => 1) (fun _ => [1])
      { buffer := [], last_infer_time := some 0, last_stage1_time := 0,
        stage2_pending := true, stage2_start_time := 0,
        stage2_collect_sec := 1, last_hold_check_time := 10,
        last_hold_notify_time := 0, consecutive_hold_count := 0,
        is_holding := false }
        (Event.packet 2 (List.replicate 30 0) 2)).1.consecutive_hold_count
      = 0 ∧
    (step witLoopCfg (fun _ => 1) (fun _ => [1])
      { buffer := [], last_infer_time := some 0, last_stage1_time := 0,
        stage2_pending := true, stage2_start_time := 0,
        stage2_collect_sec := 1, last_hold_check_time := 10,
        last_hold_notify_time := 0, consecutive_hold_count := 0,
        is_holding := false }
        (Event.packet 2 (List.replicate 30 0) 2)).1.is_holding = false ∧
    (step witLoopCfg (fun _ => 1) (fun _ => [1])
      { buffer := [], last_infer_time := some 0, last_stage1_time := 0,
        stage2_pending := true, stage2_start_time := 0,
        stage2_collect_sec := 1, last_hold_check_time := 10,
        last_hold_notify_time := 0, consecutive_hold_count := 0,
        is_holding := false }
        (Event.packet 2 (List.replicate 30 0) 2)).1.stage2_collect_sec =
      witLoopCfg.defaultCollectSec) := by
  have h := dispatch_reset_spec witLoopCfg (fun _ => 1) (fun _ => [1])
    { buffer := [], last_infer_time := some 0, last_stage1_time := 0,
      stage2_pending := true, stage2_start_time := 0,
      stage2_collect_sec := 1, last_hold_check_time := 10,
      last_hold_notify_time := 0, consecutive_hold_count := 0,
      is_holding := false } rfl
  exact ⟨h.1 2 2 (by norm_num),
    h.2 2 (List.replicate 30 0) 2
      (by norm_num [packetPre, holdCheckInterval])⟩

lemma packetPre_no_check (cfg : LoopCfg) (s : LoopState) (ts : ℚ)
    (fr : Frame) (h : ¬ holdCheckInterval ≤ ts - s.last_hold_check_time) :
    packetPre cfg s ts fr =
      ({ s with buffer := rbAdd cfg.maxlen s.buffer ts fr }, []) := by
  unfold packetPre
  dsimp only
  rw [if_neg (fun hc => h hc.2)]

lemma packetPre_idle (cfg : LoopCfg) (s : LoopState) (ts : ℚ)
    (fr : Frame) (h : s.stage2_pending = false) :
    packetPre cfg s ts fr =
      ({ s with buffer := rbAdd cfg.maxlen s.buffer ts fr }, []) := by
  unfold packetPre
  dsimp only
  rw [if_neg (by simp [h])]

lemma packetPre_check (cfg : LoopCfg) (s : LoopState) (ts : ℚ)
    (fr : Frame) (hp : s.stage2_pending = true)
    (h : holdCheckInterval ≤ ts - s.last_hold_check_time) :
    packetPre cfg s ts fr =
      holdCheck { s with buffer := rbAdd cfg.maxlen s.buffer ts fr } ts := by
  unfold packetPre
  dsimp only
  rw [if_pos ⟨hp, h⟩]

lemma holdCheck_still_confirm (s : LoopState) (ts : ℚ)
    (hstill : isStill s.buffer = true)
    (hcount : 1 ≤ s.consecutive_hold_count) :
    holdCheck s ts =
      ({ s with
          last_hold_check_time := ts,
          consecutive_hold_count := s.consecutive_hold_count + 1,
          stage2_collect_sec := ts - s.stage2_start_time + holdExtendSec,
          is_holding := true },
        if s.is_holding = true then [] else [Out.holdExtended (-1)]) := by
  unfold holdCheck
  dsimp only
  rw [if_pos hstill, if_pos (by omega : 2 ≤ s.consecutive_hold_count + 1)]
  by_cases hih : s.is_holding = true
  · rw [if_pos hih, if_pos hih]
    simp [hih]
  · rw [if_neg hih, if_neg hih]

lemma holdCheck_still_first (s : LoopState) (ts : ℚ)
    (hstill : isStill s.buffer = true)
    (hcount : s.consecutive_hold_count = 0) :
    holdCheck s ts =
      ({ s with
          last_hold_check_time := ts,
          consecutive_hold_count := 1 }, []) := by
  unfold holdCheck
  dsimp only
  rw [if_pos hstill, if_neg (by omega : ¬ 2 ≤ s.consecutive_hold_count + 1)]
  simp [hcount]

lemma holdCheck_motion (s : LoopState) (ts : ℚ)
    (hstill : isStill s.buffer = false) :
    holdCheck s ts =
      ({ s with
          last_hold_check_time := ts,
          consecutive_hold_count := 0,
          is_holding := false }, []) := by
  unfold holdCheck
  dsimp only
  rw [if_neg (by simp [hstill])]

/-- C4: hold-extension behaviour of a Collecting packet step.  (i) When
less than `hold_check_interval` has elapsed since the last check (and the
deadline has not been crossed), no motion check runs: the hold state and
the collection duration are untouched and no `hold_extended` event is
emitted.  (ii) A due check that finds both motion spreads below the fixed
thresholds increments the still-counter; when the streak reaches 2 or more
the collection deadline becomes exactly the check time plus
`hold_extend_sec` (this covers every later still check too, so it repeats
without bound), the session stays Collecting, and `hold_extended(-1)` is
emitted iff the holding flag was not yet set (first confirmation only).
(iii) A due still check with an empty streak only increments the counter
to 1: no extension, no emission.  (iv) A due check that finds motion
resets the counter to 0 and clears the holding flag without extension or
emission. -/
theorem hold_extension_spec (cfg : LoopCfg) (O1 : List (List ℚ) → ℚ)
    (O2 : List (List ℚ) → List ℚ) (s : LoopState) (ts : ℚ) (fr : Frame)
    (now2 : ℚ) (hp : s.stage2_pending = true) :
    (ts - s.last_hold_check_time < holdCheckInterval →
      ts < s.stage2_start_time + s.stage2_collect_sec →
      (step cfg O1 O2 s (Event.packet ts fr now2)).1.consecutive_hold_count
        = s.consecutive_hold_count ∧
      (step cfg O1 O2 s (Event.packet ts fr now2)).1.is_holding =
        s.is_holding ∧
      (step cfg O1 O2 s (Event.packet ts fr now2)).1.stage2_collect_sec =
        s.stage2_collect_sec ∧
      (step cfg O1 O2 s (Event.packet ts fr now2)).1.last_hold_check_time
        = s.last_hold_check_time ∧
      Out.holdExtended (-1) ∉ (step cfg O1 O2 s
        (Event.packet ts fr now2)).2) ∧
    (holdCheckInterval ≤ ts - s.last_hold_check_time →
      isStill (rbAdd cfg.maxlen s.buffer ts fr) = true →
      1 ≤ s.consecutive_hold_count →
      (step cfg O1 O2 s (Event.packet ts fr now2)).1.stage2_pending =
        true ∧
      (step cfg O1 O2 s (Event.packet ts fr now2)).1.consecutive_hold_count
        = s.consecutive_hold_count + 1 ∧
      (step cfg O1 O2 s (Event.packet ts fr now2)).1.is_holding = true ∧
      (step cfg O1 O2 s (Event.packet ts fr now2)).1.stage2_start_time +
        (step cfg O1 O2 s (Event.packet ts fr now2)).1.stage2_collect_sec
        = ts + holdExtendSec ∧
      (Out.holdExtended (-1) ∈ (step cfg O1 O2 s
        (Event.packet ts fr now2)).2 ↔ s.is_holding = false)) ∧
    (holdCheckInterval ≤ ts - s.last_hold_check_time →
      isStill (rbAdd cfg.maxlen s.buffer ts fr) = true →
      s.consecutive_hold_count = 0 →
      ts < s.stage2_start_time + s.stage2_collect_sec →
      (step cfg O1 O2 s (Event.packet ts fr now2)).1.consecutive_hold_count
        = 1 ∧
      (step cfg O1 O2 s (Event.packet ts fr now2)).1.stage2_collect_sec =
        s.stage2_collect_sec ∧
      (step cfg O1 O2 s (Event.packet ts fr now2)).1.is_holding =
        s.is_holding ∧
      Out.holdExtended (-1) ∉ (step cfg O1 O2 s
        (Event.packet ts fr now2)).2) ∧
    (holdCheckInterval ≤ ts - s.last_hold_check_time →
      isStill (rbAdd cfg.maxlen s.buffer ts fr) = false →
      ts < s.stage2_start_time + s.stage2_collect_sec →
      (step cfg O1 O2 s (Event.packet ts fr now2)).1.consecutive_hold_count
        = 0 ∧
      (step cfg O1 O2 s (Event.packet ts fr now2)).1.is_holding = false ∧
      (step cfg O1 O2 s (Event.packet ts fr now2)).1.stage2_collect_sec =
        s.stage2_collect_sec ∧
      Out.holdExtended (-1) ∉ (step cfg O1 O2 s
        (Event.packet ts fr now2)).2) := by
  refine ⟨?_, ?_, ?_, ?_⟩
  · intro hnc hnd
    have hpre := packetPre_no_check cfg s ts fr (not_le.mpr hnc)
    rw [step]
    dsimp only
    rw [hpre]
    dsimp only
    rw [if_neg (fun hcon => absurd hcon.2 (not_le.mpr hnd)),
      if_pos (show ({ s with buffer := rbAdd cfg.maxlen s.buffer ts fr} :
        LoopState).stage2_pending = true from hp)]
    exact ⟨rfl, rfl, rfl, rfl, by simp⟩
  · intro hc hstill hcount
    have hbuf : isStill
        ({ s with buffer := rbAdd cfg.maxlen s.buffer ts fr} :
          LoopState).buffer = true := hstill
    have hpre := packetPre_check cfg s ts fr hp hc
    rw [holdCheck_still_confirm _ ts hbuf hcount] at hpre
    rw [step]
    dsimp only
    rw [hpre]
    dsimp only
    rw [if_neg ?hno, if_pos ?hyes]
    case hno =>
      intro hcon
      have h2 : s.stage2_start_time +
          (ts - s.stage2_start_time + holdExtendSec) ≤ ts := hcon.2
      rw [holdExtendSec] at h2
      linarith
    case hyes => exact hp
    refine ⟨hp, rfl, rfl, ?_, ?_⟩
    · show s.stage2_start_time + (ts - s.stage2_start_time +
        holdExtendSec) = ts + holdExtendSec
      ring
    · by_cases hih : s.is_holding = true
      · simp [hih]
      · simp only [Bool.not_eq_true] at hih
        simp [hih]
  · intro hc hstill hcount hnd
    have hbuf : isStill
        ({ s with buffer := rbAdd cfg.maxlen s.buffer ts fr} :
          LoopState).buffer = true := hstill
    have hpre := packetPre_check cfg s ts fr hp hc
    rw [holdCheck_still_first _ ts hbuf hcount] at hpre
    rw [step]
    dsimp only
    rw [hpre]
    dsimp only
    rw [if_neg (fun hcon => absurd hcon.2 (not_le.mpr hnd)),
      if_pos (show s.stage2_pending = true from hp)]
    exact ⟨rfl, rfl, rfl, by simp⟩
  · intro hc hstill hnd
    have hbuf : isStill
        ({ s with buffer := rbAdd cfg.maxlen s.buffer ts fr} :
          LoopState).buffer = false := hstill
    have hpre := packetPre_check cfg s ts fr hp hc
    rw [holdCheck_motion _ ts hbuf] at hpre
    rw [step]
    dsimp only
    rw [hpre]
    dsimp only
    rw [if_neg (fun hcon => absurd hcon.2 (not_le.mpr hnd)),
      if_pos (show s.stage2_pending = true from hp)]
    exact ⟨rfl, rfl, rfl, by simp⟩

/-- Witness for `hold_extension_spec`: from a Collecting state with a
still streak of 1 and four buffered motionless samples, a fifth identical
sample at `ts = 1/2` (a due check: the last check was at 0) confirms the
hold — the step keeps collecting, the counter reaches 2, the holding flag
turns on, the new deadline is exactly `1/2 + 2`, and `hold_extended(-1)`
is emitted because the flag was previously off. -/
theorem hold_extension_spec_witness :
    (step witLoopCfg (fun _ => 1) (fun _ => [1])
      { buffer := [(1/10, List.replicate 30 0), (2/10, List.replicate 30 0),
          (3/10, List.replicate 30 0), (4/10, List.replicate 30 0)],
        last_infer_time := none, last_stage1_time := 0,
        stage2_pending := true, stage2_start_time := 0,
        stage2_collect_sec := 5/2, last_hold_check_time := 0,
        last_hold_notify_time := 0, consecutive_hold_count := 1,
        is_holding := false }
      (Event.packet (1/2) (List.replicate 30 0) (1/2))).1.stage2_pending =
      true ∧
    (step witLoopCfg (fun _ => 1) (fun _ => [1])
      { buffer := [(1/10, List.replicate 30 0), (2/10, List.replicate 30 0),
          (3/10, List.replicate 30 0), (4/10, List.replicate 30 0)],
        last_infer_time := none, last_stage1_time := 0,
        stage2_pending := true, stage2_start_time := 0,
        stage2_collect_sec := 5/2, last_hold_check_time := 0,
        last_hold_notify_time := 0, consecutive_hold_count := 1,
        is_holding := false }
      (Event.packet (1/2) (List.replicate 30 0)
        (1/2))).1.consecutive_hold_count = 1 + 1 ∧
    (step witLoopCfg (fun _ => 1) (fun _ => [1])
      { buffer := [(1/10, List.replicate 30 0), (2/10, List.replicate 30 0),
          (3/10, List.replicate 30 0), (4/10, List.replicate 30 0)],
        last_infer_time := none, last_stage1_time := 0,
        stage2_pending := true, stage2_start_time := 0,
        stage2_collect_sec := 5/2, last_hold_check_time := 0,
        last_hold_notify_time := 0, consecutive_hold_count := 1,
        is_holding := false }
      (Event.packet (1/2) (List.replicate 30 0) (1/2))).1.is_holding =
      true ∧
    (step witLoopCfg (fun _ => 1) (fun _ => [1])
      { buffer := [(1/10, List.replicate 30 0), (2/10, List.replicate 30 0),
          (3/10, List.replicate 30 0), (4/10, List.replicate 30 0)],
        last_infer_time := none, last_stage1_time := 0,
        stage2_pending := true, stage2_start_time := 0,
        stage2_collect_sec := 5/2, last_hold_check_time := 0,
        last_hold_notify_time := 0, consecutive_hold_count := 1,
        is_holding := false }
      (Event.packet (1/2) (List.replicate 30 0)
        (1/2))).1.stage2_start_time +
      (step witLoopCfg (fun _ => 1) (fun _ => [1])
      { buffer := [(1/10, List.replicate 30 0), (2/10, List.replicate 30 0),
          (3/10, List.replicate 30 0), (4/10, List.replicate 30 0)],
        last_infer_time := none, last_stage1_time := 0,
        stage2_pending := true, stage2_start_time := 0,
        stage2_collect_sec := 5/2, last_hold_check_time := 0,
        last_hold_notify_time := 0, consecutive_hold_count := 1,
        is_holding := false }
      (Event.packet (1/2) (List.replicate 30 0)
        (1/2))).1.stage2_collect_sec = 1/2 + holdExtendSec ∧
    (Out.holdExtended (-1) ∈ (step witLoopCfg (fun _ => 1) (fun _ => [1])
      { buffer := [(1/10, List.replicate 30 0), (2/10, List.replicate 30 0),
          (3/10, List.replicate 30 0), (4/10, List.replicate 30 0)],
        last_infer_time := none, last_stage1_time := 0,
        stage2_pending := true, stage2_start_time := 0,
        stage2_collect_sec := 5/2, last_hold_check_time := 0,
        last_hold_notify_time := 0, consecutive_hold_count := 1,
        is_holding := false }
      (Event.packet (1/2) (List.replicate 30 0) (1/2))).2 ↔
      (false : Bool) = false) :=
  (hold_extension_spec witLoopCfg (fun _ => 1) (fun _ => [1])
    { buffer := [(1/10, List.replicate 30 0), (2/10, List.replicate 30 0),
        (3/10, List.replicate 30 0), (4/10, List.replicate 30 0)],
      last_infer_time := none, last_stage1_time := 0,
      stage2_pending := true, stage2_start_time := 0,
      stage2_collect_sec := 5/2, last_hold_check_time := 0,
      last_hold_notify_time := 0, consecutive_hold_count := 1,
      is_holding := false } (1/2) (List.replicate 30 0) (1/2)
    rfl).2.1
    (by norm_num [holdCheckInterval])
    (by norm_num [isStill, calculate_motion_magnitude, rbAdd, witLoopCfg,
      motionQualifying, rbGetRecent, varSum3, popVar, ch,
      holdAccelThreshold, holdGyroThreshold])
    (by norm_num)

lemma step_last_stage1_lb (cfg : LoopCfg) (O1 : List (List ℚ) → ℚ)
    (O2 : List (List ℚ) → List ℚ) (t : ℚ) (s : LoopState) (e : Event)
    (hs : t ≤ s.last_stage1_time) (he : eventLB t e) :
    t ≤ (step cfg O1 O2 s e).1.last_stage1_time := by
  cases e with
  | noPacket now now2 =>
      obtain ⟨h1, h2⟩ := he
      rw [step]
      split_ifs with hc
      · dsimp only
        linarith
      · exact hs
  | packet ts fr now2 =>
      obtain ⟨h1, h2⟩ := he
      rw [step]
      dsimp only
      split_ifs with hA hB hC hD
      · dsimp only
        linarith
      · dsimp only
        rw [packetPre_last_stage1]
        exact hs
      · dsimp only
        rw [packetPre_last_stage1]
        exact hs
      · dsimp only
        rw [packetPre_last_stage1]
        exact hs
      · dsimp only
        exact h1

lemma run_last_stage1_lb (cfg : LoopCfg) (O1 : List (List ℚ) → ℚ)
    (O2 : List (List ℚ) → List ℚ) (t : ℚ) :
    ∀ (es : List Event) (s : LoopState), t ≤ s.last_stage1_time →
    (∀ e ∈ es, eventLB t e) →
    t ≤ (run cfg O1 O2 s es).last_stage1_time := by
  intro es
  induction es with
  | nil => exact fun s hs _ => hs
  | cons e rest ih =>
      intro s hs hall
      have hstep : run cfg O1 O2 s (e :: rest) =
          run cfg O1 O2 (step cfg O1 O2 s e).1 rest := rfl
      rw [hstep]
      exact ih _ (step_last_stage1_lb cfg O1 O2 t s e hs
        (hall e (by simp))) (fun e2 he2 => hall e2 (by simp [he2]))

lemma step_entry (cfg : LoopCfg) (O1 : List (List ℚ) → ℚ)
    (O2 : List (List ℚ) → List ℚ) (s : LoopState) (ts : ℚ) (fr : Frame)
    (now2 : ℚ) (hidle : s.stage2_pending = false)
    (hdet : (maybe_detect cfg.s1 O1
      ⟨rbAdd cfg.maxlen s.buffer ts fr, s.last_infer_time⟩ ts).1.1 = true)
    (hcool : cfg.cooldown ≤ ts - s.last_stage1_time) :
    (step cfg O1 O2 s (Event.packet ts fr now2)).1.stage2_pending = true ∧
    (step cfg O1 O2 s (Event.packet ts fr now2)).1.last_stage1_time =
      ts := by
  have hpre := packetPre_idle cfg s ts fr hidle
  rw [step]
  dsimp only
  rw [hpre]
  dsimp only
  split_ifs with hA hB hC hD <;>
    first
      | exact ⟨rfl, rfl⟩
      | (exfalso; linarith)
      | (simp_all; done)
      | simp_all

lemma step_no_entry_of_cooldown (cfg : LoopCfg)
    (O1 : List (List ℚ) → ℚ) (O2 : List (List ℚ) → List ℚ)
    (s : LoopState) (ts : ℚ) (fr : Frame) (now2 : ℚ)
    (hidle : s.stage2_pending = false)
    (hlast : ts - s.last_stage1_time < cfg.cooldown) :
    (step cfg O1 O2 s (Event.packet ts fr now2)).1.stage2_pending =
      false := by
  have hpre := packetPre_idle cfg s ts fr hidle
  rw [step]
  dsimp only
  rw [hpre]
  dsimp only
  split_ifs with hA hB hC hD <;>
    first
      | rfl
      | exact hidle
      | (exfalso; linarith)
      | (simp_all; done)
      | simp_all

/-- C8: two above-threshold Stage-1 spikes less than `cooldown` seconds
apart produce exactly one Idle → Collecting transition.  From an Idle
state, a packet at `ts1` on which the detector fires and whose cooldown
has elapsed performs the transition and records `last_stage1_time = ts1`;
after any sequence of further events (all timed at or after `ts1`), a
second spike packet at `ts2` with `ts2 − ts1 < cooldown` performs no
Idle → Collecting transition: either the session is still Collecting, or
it is Idle with `last_stage1_time ≥ ts1`, so
`ts2 − last_stage1_time < cooldown` suppresses the entry. -/
theorem entry_cooldown_once (cfg : LoopCfg) (O1 : List (List ℚ) → ℚ)
    (O2 : List (List ℚ) → List ℚ) (s0 : LoopState) (ts1 : ℚ)
    (fr1 : Frame) (n1 : ℚ) (mid : List Event) (ts2 : ℚ) (fr2 : Frame)
    (n2 : ℚ)
    (hidle : s0.stage2_pending = false)
    (hdet : (maybe_detect cfg.s1 O1
      ⟨rbAdd cfg.maxlen s0.buffer ts1 fr1, s0.last_infer_time⟩
      ts1).1.1 = true)
    (hcool : cfg.cooldown ≤ ts1 - s0.last_stage1_time)
    (hmid : ∀ e ∈ mid, eventLB ts1 e)
    (hts2 : ts2 - ts1 < cfg.cooldown) :
    entryTransition cfg O1 O2 s0 (Event.packet ts1 fr1 n1) = true ∧
    (step cfg O1 O2 s0 (Event.packet ts1 fr1 n1)).1.last_stage1_time =
      ts1 ∧
    entryTransition cfg O1 O2
      (run cfg O1 O2 (step cfg O1 O2 s0 (Event.packet ts1 fr1 n1)).1 mid)
      (Event.packet ts2 fr2 n2) = false := by
  obtain ⟨hpend1, hlast1⟩ :=
    step_entry cfg O1 O2 s0 ts1 fr1 n1 hidle hdet hcool
  refine ⟨?_, hlast1, ?_⟩
  · unfold entryTransition
    rw [hidle, hpend1]
    rfl
  · have hlb : ts1 ≤ (run cfg O1 O2
        (step cfg O1 O2 s0 (Event.packet ts1 fr1 n1)).1
        mid).last_stage1_time :=
      run_last_stage1_lb cfg O1 O2 ts1 mid _ (le_of_eq hlast1.symm) hmid
    unfold entryTransition
    by_cases hpm : (run cfg O1 O2
        (step cfg O1 O2 s0 (Event.packet ts1 fr1 n1)).1
        mid).stage2_pending = true
    · rw [hpm]
      rfl
    · have hpm' : (run cfg O1 O2
          (step cfg O1 O2 s0 (Event.packet ts1 fr1 n1)).1
          mid).stage2_pending = false := by
        simpa using hpm
      rw [step_no_entry_of_cooldown cfg O1 O2 _ ts2 fr2 n2 hpm'
        (by linarith)]
      simp

/-- Witness for `entry_cooldown_once`: with a 1-sample model window and a
constant-probability-1 oracle, an Idle state with one buffered sample
fires at `ts1 = 1` (cooldown 2 elapsed since `last_stage1_time = -10`),
and a second spike at `ts2 = 3/2` (only 1/2 s later) is suppressed. -/
theorem entry_cooldown_once_witness :
    entryTransition witLoopCfg (fun _ => 1) (fun _ => [1])
      { buffer := [(9/10, List.replicate 30 0)], last_infer_time := none,
        last_stage1_time := -10, stage2_pending := false,
        stage2_start_time := 0, stage2_collect_sec := 5/2,
        last_hold_check_time := 0, last_hold_notify_time := 0,
        consecutive_hold_count := 0, is_holding := false }
      (Event.packet 1 (List.replicate 30 0) 1) = true ∧
    (step witLoopCfg (fun _ => 1) (fun _ => [1])
      { buffer := [(9/10, List.replicate 30 0)], last_infer_time := none,
        last_stage1_time := -10, stage2_pending := false,
        stage2_start_time := 0, stage2_collect_sec := 5/2,
        last_hold_check_time := 0, last_hold_notify_time := 0,
        consecutive_hold_count := 0, is_holding := false }
      (Event.packet 1 (List.replicate 30 0) 1)).1.last_stage1_time = 1 ∧
    entryTransition witLoopCfg (fun _ => 1) (fun _ => [1])
      (run witLoopCfg (fun _ => 1) (fun _ => [1])
        (step witLoopCfg (fun _ => 1) (fun _ => [1])
          { buffer := [(9/10, List.replicate 30 0)],
            last_infer_time := none, last_stage1_time := -10,
            stage2_pending := false, stage2_start_time := 0,
            stage2_collect_sec := 5/2, last_hold_check_time := 0,
            last_hold_notify_time := 0, consecutive_hold_count := 0,
            is_holding := false }
          (Event.packet 1 (List.replicate 30 0) 1)).1 [])
      (Event.packet (3/2) (List.replicate 30 0) (3/2)) = false :=
  entry_cooldown_once witLoopCfg (fun _ => 1) (fun _ => [1])
    { buffer := [(9/10, List.replicate 30 0)], last_infer_time := none,
      last_stage1_time := -10, stage2_pending := false,
      stage2_start_time := 0, stage2_collect_sec := 5/2,
      last_hold_check_time := 0, last_hold_notify_time := 0,
      consecutive_hold_count := 0, is_holding := false }
    1 (List.replicate 30 0) 1 [] (3/2) (List.replicate 30 0) (3/2)
    rfl
    (by norm_num [maybe_detect, witLoopCfg, s1CfgAt, rbAdd, rateLimited,
      get_by_time_range])
    (by norm_num [witLoopCfg])
    (by simp)
    (by norm_num [witLoopCfg])

/-- C5 (amended: the threshold comparison happens *inside* the Stage-1
scorer, which returns the `(is_gesture, prob)` pair with
`is_gesture = prob ≥ threshold`; the session state machine consumes the
returned flag and adds only the cooldown gate): when `maybe_detect`
reaches inference it returns exactly
`((prob ≥ threshold, prob), last_infer_time := now)` with
`prob = O1(normalized window)`, and from an Idle state a packet opens the
collection window iff the scorer's returned flag is `true` and the
cooldown has elapsed. -/
theorem stage1_threshold_decision (lcfg : LoopCfg)
    (O1 : List (List ℚ) → ℚ) (O2 : List (List ℚ) → List ℚ) :
    (∀ (st : S1State) (now : ℚ),
      ¬ st.buffer.length < lcfg.s1.winLen →
      rateLimited st.lastInfer now lcfg.s1.stepSec = false →
      ¬ (get_by_time_range st.buffer (now - lcfg.s1.windowSec)
        now).length < 2 →
      maybe_detect lcfg.s1 O1 st now =
        ((decide (lcfg.s1.threshold ≤
            O1 (stage1_model_input lcfg.s1 st.buffer now)),
          some (O1 (stage1_model_input lcfg.s1 st.buffer now))),
         { st with lastInfer := some now })) ∧
    (∀ (s : LoopState) (ts : ℚ) (fr : Frame) (now2 : ℚ),
      s.stage2_pending = false →
      ((step lcfg O1 O2 s (Event.packet ts fr now2)).1.stage2_pending =
          true ↔
        ((maybe_detect lcfg.s1 O1
            ⟨rbAdd lcfg.maxlen s.buffer ts fr, s.last_infer_time⟩
            ts).1.1 = true ∧
          lcfg.cooldown ≤ ts - s.last_stage1_time))) := by
  constructor
  · intro st now h1 h2 h3
    unfold maybe_detect
    rw [if_neg h1, if_neg (by simp [h2])]
    dsimp only
    rw [if_neg h3]
  · intro s ts fr now2 hidle
    have hpre := packetPre_idle lcfg s ts fr hidle
    rw [step]
    dsimp only
    rw [hpre]
    dsimp only
    rw [if_neg (show ¬ (s.stage2_pending = true ∧
        s.stage2_start_time + s.stage2_collect_sec ≤ ts) from
      fun hcon => by rw [hidle] at hcon; simp at hcon)]
    rw [if_neg (show ¬ s.stage2_pending = true from by simp [hidle])]
    split_ifs with hC hD
    · exact iff_of_false (by simp [hidle]) (by simp [hC])
    · exact iff_of_false (by simp [hidle])
        (fun hcon => absurd hcon.2 (not_le.mpr hD))
    · exact iff_of_true rfl ⟨by simpa using hC, not_lt.mp hD⟩

/-- Witness for `stage1_threshold_decision`: with threshold 1/2 and a
constant oracle probability 3/4, the scorer itself returns the `true`
flag alongside the probability and advances its rate-limit clock. -/
theorem stage1_threshold_decision_witness :
    maybe_detect witLoopCfg.s1 (fun _ => 3/4) ⟨s1CexBuf, none⟩ 1 =
      ((true, some (3/4)), ⟨s1CexBuf, some 1⟩) := by
  have h := (stage1_threshold_decision witLoopCfg (fun _ => 3/4)
    (fun _ => [1])).1 ⟨s1CexBuf, none⟩ 1
    (by norm_num [s1CexBuf, witLoopCfg, s1CfgAt])
    rfl
    (by norm_num [get_by_time_range, s1CexBuf, witLoopCfg, s1CfgAt])
  rw [h]
  norm_num [witLoopCfg, s1CfgAt]

/-- C6 counterexample: sanitization does *not* precede interpolation.
With the clip bound 10⁴ and a raw glitch value 2·10⁴, the model input the
code computes (interpolate first, then clip inside `_preprocess`) reads
10⁴ at the mid-window grid point, whereas the claim's order (clip the raw
values, then interpolate) would give 5·10³ there — the two pipelines
disagree on this invocation. -/
theorem sanitize_order_cex :
    ((stage1_model_input c6Cfg c6CexBuf 1).getD 1 []).getD 0 0 = 10000 ∧
    ((stage1_input_sanitizeFirst c6Cfg c6CexBuf 1).getD 1 []).getD 0 0 =
      5000 ∧
    stage1_model_input c6Cfg c6CexBuf 1 ≠
      stage1_input_sanitizeFirst c6Cfg c6CexBuf 1 := by
  have h1 : ((stage1_model_input c6Cfg c6CexBuf 1).getD 1 []).getD 0 0 =
      10000 := by
    norm_num [stage1_model_input, get_by_time_range, resampleGrid,
      timeGrid, column, interp, preprocess, preprocessRow, clipQ, ch,
      detIndices, c6Cfg, c6CexBuf, List.range_succ]
  have h2 : ((stage1_input_sanitizeFirst c6Cfg c6CexBuf 1).getD 1
      []).getD 0 0 = 5000 := by
    norm_num [stage1_input_sanitizeFirst, get_by_time_range, resampleGrid,
      timeGrid, column, interp, preprocess, preprocessRow, clipQ, ch,
      detIndices, c6Cfg, c6CexBuf, List.range_succ]
  refine ⟨h1, h2, fun heq => ?_⟩
  rw [heq, h2] at h1
  norm_num at h1

/-- C6 (amended: for every scoring invocation that reaches inference, the
clip/NaN sanitization is applied *after* the linear-interpolation
resampling — it is the first step of `_preprocess`, which normalizes the
already-resampled window; likewise every Stage-2 sub-window is
`_preprocess` applied to a slice of the resampled sequence). -/
theorem sanitize_after_resample (cfg : S1Cfg) (O : List (List ℚ) → ℚ)
    (st : S1State) (now : ℚ)
    (h1 : ¬ st.buffer.length < cfg.winLen)
    (h2 : rateLimited st.lastInfer now cfg.stepSec = false)
    (h3 : ¬ (get_by_time_range st.buffer (now - cfg.windowSec)
      now).length < 2) :
    ((maybe_detect cfg O st now).1.2 =
      some (O (preprocess cfg.mean cfg.std cfg.eps cfg.clipValue
        (resampleGrid
          ((get_by_time_range st.buffer (now - cfg.windowSec) now).map
            (fun e => e.1))
          ((get_by_time_range st.buffer (now - cfg.windowSec) now).map
            (fun e => detIndices.map (ch e.2)))
          (timeGrid (now - cfg.windowSec) (1 / cfg.targetFs) cfg.winLen)
          detIndices.length)))) ∧
    (∀ (cfg2 : S2Cfg) (O2 : List (List ℚ) → List ℚ)
      (imuRes : List (List ℚ)) (s2 : ℕ),
      windowScore cfg2 O2 imuRes s2 =
        (maxD (O2 (preprocess cfg2.mean cfg2.std cfg2.eps cfg2.clipValue
          ((imuRes.drop s2).take cfg2.seqLen))),
         argmaxIdx (O2 (preprocess cfg2.mean cfg2.std cfg2.eps
          cfg2.clipValue ((imuRes.drop s2).take cfg2.seqLen))))) := by
  constructor
  · unfold maybe_detect
    rw [if_neg h1, if_neg (by simp [h2])]
    dsimp only
    rw [if_neg h3]
    rfl
  · intro cfg2 O2 imuRes s2
    rfl

/-- Witness for `sanitize_after_resample`: the concrete Stage-1 run of
the threshold witness also exhibits the sanitize-after-resample pipeline
(the constant oracle collapses the window, so the returned probability is
3/4). -/
theorem sanitize_after_resample_witness :
    (maybe_detect (s1CfgAt (1/2)) (fun _ => 3/4)
      ⟨s1CexBuf, none⟩ 1).1.2 = some (3/4) := by
  have h := (sanitize_after_resample (s1CfgAt (1/2)) (fun _ => 3/4)
    ⟨s1CexBuf, none⟩ 1
    (by norm_num [s1CexBuf, s1CfgAt])
    rfl
    (by norm_num [get_by_time_range, s1CexBuf, s1CfgAt])).1
  exact h
end IVO


